import Mathlib

/-!
Shallow embedding of the Steam game-data cleaning pipeline from
`Data preprocessing/data_cleaner.py` and `Data preprocessing/train_ml_model.py`.

Modelling conventions:
* A cell of a CSV row is a `Value`: `null` (NaN / absent), a text `str`, or a
  number `num` (Python floats are modelled as rationals `ℚ`).
* String processing (strip, lower-case comparison, the regexes `(\d{4})` and
  `\d+\.?\d*`, and Python `float()` parsing of plain decimal literals) is
  implemented over `List Char` so that every definition reduces in the kernel.
* Rational arithmetic inside definitions uses the kernel-reducible wrappers
  `qadd`, `qmul`, `qdiv`, `qneg` (each provably equal to the corresponding
  field operation on `ℚ`; see the bridge lemmas `qadd_eq` …), so concrete runs
  of the pipeline can be settled by `decide`.
* Network collaborators (Steam store, SteamSpy, SteamCharts) and trained
  sklearn models are opaque: they enter as function / data parameters, and a
  call that can raise is modelled with `Except String`.
* `float(x)` applied to a cell is modelled by an `Option ℚ`: `none` stands for
  a parse failure (Python `ValueError`) or a NaN result; in every modelled code
  path a NaN value and a raised error lead to the same observable treatment of
  the surrounding record.
-/

namespace SteamData

/-! ### Kernel-reducible rational arithmetic -/

/-- Multiplication on `ℚ` via `mkRat` (reduces in the kernel). -/
def qmul (a b : ℚ) : ℚ := mkRat (a.num * b.num) (a.den * b.den)

/-- Addition on `ℚ` via `mkRat` (reduces in the kernel). -/
def qadd (a b : ℚ) : ℚ := mkRat (a.num * b.den + b.num * a.den) (a.den * b.den)

/-- Negation on `ℚ` via `mkRat` (reduces in the kernel). -/
def qneg (a : ℚ) : ℚ := mkRat (-a.num) a.den

/-- Inverse on `ℚ` via `Rat.divInt` (reduces in the kernel); `qinv 0 = 0`. -/
def qinv (a : ℚ) : ℚ := Rat.divInt a.den a.num

/-- Division on `ℚ` (reduces in the kernel); `qdiv a 0 = 0`, matching the
field convention — every division in the source is guarded by a positivity
check, so the `0` case is never taken on a modelled path. -/
def qdiv (a b : ℚ) : ℚ := qmul a (qinv b)

/-- Python `int(x)` on a float: truncation toward zero, via `Nat` division. -/
def pyInt (q : ℚ) : ℤ :=
  if q.num < 0 then -(((-q.num).toNat / q.den : ℕ) : ℤ) else ((q.num.toNat / q.den : ℕ) : ℤ)

/-! ### Data model -/

/-- Cell value of a record: null (NaN / None), text, or a number. -/
inductive Value where
  | null
  | str (s : String)
  | num (q : ℚ)
  deriving DecidableEq, Repr

/-- The seven critical columns checked by the cleaner (`critical_fields` in
`data_cleaner.py`); each constructor stands both for the Chinese column name
and for its `field_type` tag (the mapping is a bijection). -/
inductive Field where
  | release_date
  | price
  | playtime_avg
  | playtime_median
  | current_players
  | peak_24h
  | peak_alltime
  deriving DecidableEq, Repr

/-- Iteration order of `critical_fields` (Python dict insertion order). -/
def criticalFieldsOrder : List Field :=
  [Field.release_date, Field.price, Field.playtime_avg, Field.playtime_median,
   Field.current_players, Field.peak_24h, Field.peak_alltime]

/-- The interdependent player-count cluster (`player_fields` in `clean_data`). -/
def clusterFields : List Field :=
  [Field.current_players, Field.peak_24h, Field.peak_alltime]

/-- A CSV row restricted to the columns the cleaner touches. -/
structure Record where
  app_id : ℤ
  release_date : Value
  price : Value
  playtime_avg : Value
  playtime_median : Value
  current_players : Value
  peak_24h : Value
  peak_alltime : Value
  deriving DecidableEq, Repr

/-- Read one critical column of a row (`row[field_cn]`). -/
def Record.get (r : Record) : Field → Value
  | .release_date => r.release_date
  | .price => r.price
  | .playtime_avg => r.playtime_avg
  | .playtime_median => r.playtime_median
  | .current_players => r.current_players
  | .peak_24h => r.peak_24h
  | .peak_alltime => r.peak_alltime

/-- Write one critical column of a row (`df.at[idx, field_cn] = value`). -/
def Record.set (r : Record) (f : Field) (v : Value) : Record :=
  match f with
  | .release_date => { r with release_date := v }
  | .price => { r with price := v }
  | .playtime_avg => { r with playtime_avg := v }
  | .playtime_median => { r with playtime_median := v }
  | .current_players => { r with current_players := v }
  | .peak_24h => { r with peak_24h := v }
  | .peak_alltime => { r with peak_alltime := v }

/-! ### Character-level string helpers (kernel-reducible) -/

/-- ASCII decimal digit test, `0`–`9` by code point. -/
def digitChar (c : Char) : Bool := 48 ≤ c.toNat && c.toNat ≤ 57

/-- Numeric value of a digit character. -/
def digitVal (c : Char) : ℕ := c.toNat - 48

/-- Value of a digit string read left to right. -/
def natOfDigits (l : List Char) : ℕ := l.foldl (fun a c => a * 10 + digitVal c) 0

/-- Whitespace characters removed by Python `str.strip()` (ASCII range). -/
def spaceChar (c : Char) : Bool :=
  c = ' ' || c = '\t' || c = '\n' || c = '\x0d' || c = '\x0b' || c = '\x0c'

/-- Python `str.strip()` on a char list. -/
def stripChars (cs : List Char) : List Char :=
  ((cs.dropWhile spaceChar).reverse.dropWhile spaceChar).reverse

/-- `charLowerEq c d`: Python `c.lower() == d` for a lower-case target
character `d` (ASCII case folding). -/
def charLowerEq (c d : Char) : Bool :=
  c = d || ((65 ≤ c.toNat && c.toNat ≤ 90) && c.toNat + 32 = d.toNat)

/-- `lowerEq cs t`: Python `s.lower() == t` for a lower-case target `t`. -/
def lowerEq (cs t : List Char) : Bool :=
  cs.length = t.length && (cs.zip t).all (fun p => charLowerEq p.1 p.2)

/-- The unsigned part of Python `float(s)` parsing: digits with an optional
decimal point (`none` = `ValueError`). -/
def parseFloatUnsigned (cs : List Char) : Option ℚ :=
  let intPart := cs.takeWhile digitChar
  let rest := cs.dropWhile digitChar
  match rest with
  | [] => if intPart.isEmpty then none else some ((natOfDigits intPart : ℚ))
  | r :: frac =>
    if r = '.' then
      let fracDigits := frac.takeWhile digitChar
      let rest2 := frac.dropWhile digitChar
      if rest2.isEmpty && (!intPart.isEmpty || !fracDigits.isEmpty) then
        some (qadd ((natOfDigits intPart : ℚ))
          (mkRat (natOfDigits fracDigits) (10 ^ fracDigits.length)))
      else none
    else none

/-- Model of Python `float(s)` on an already-stripped string: optional sign,
then digits with an optional decimal point (`none` = `ValueError`). -/
def parseFloatCore (cs : List Char) : Option ℚ :=
  match cs with
  | [] => none
  | c :: t =>
    if c = '-' then (parseFloatUnsigned t).map qneg
    else if c = '+' then parseFloatUnsigned t
    else parseFloatUnsigned (c :: t)

/-- Python `float(value)` on a cell (strings are stripped first, as `float`
ignores surrounding whitespace); `none` = unparseable (or NaN input). -/
def pyParsed : Value → Option ℚ
  | .null => none
  | .num q => some q
  | .str s => parseFloatCore (stripChars s.data)

/-- Python truthiness of a cell (note: NaN is truthy). -/
def pyTruthy : Value → Bool
  | .null => true
  | .str s => !s.data.isEmpty
  | .num q => decide (q ≠ 0)

/-- Python `str(cell)`.  A NaN cell prints as `"nan"`.  Non-integer numeric
cells are rendered as `num/den`, unlike Python float repr; no verified claim
evaluates `str()` on a non-integer numeric cell. -/
def pyStr : Value → String
  | .null => "nan"
  | .str s => s
  | .num q => if q.den = 1 then toString q.num else toString q.num ++ "/" ++ toString q.den

/-- Leftmost match of the regex `(\d{4})` (first position with four
consecutive digits), as used for the release year. -/
def firstYearMatch : List Char → Option ℕ
  | [] => none
  | c :: rest =>
    if digitChar c && (rest.take 3).all digitChar && decide (3 ≤ rest.length) then
      some (natOfDigits (c :: rest.take 3))
    else firstYearMatch rest

/-- Leftmost match of the regex `\d+\.?\d*` converted by `float()` (first
number found in a price string). -/
def firstNumber : List Char → Option ℚ
  | c :: rest =>
    if digitChar c then
      let ds := (c :: rest).takeWhile digitChar
      let r1 := (c :: rest).dropWhile digitChar
      match r1 with
      | r :: r2 =>
        if r = '.' then
          some (qadd ((natOfDigits ds : ℚ))
            (mkRat (natOfDigits (r2.takeWhile digitChar)) (10 ^ (r2.takeWhile digitChar).length)))
        else some ((natOfDigits ds : ℚ))
      | [] => some ((natOfDigits ds : ℚ))
    else firstNumber rest
  | [] => none

/-! ### Field Classifier: `SteamDataCleaner.is_field_missing` -/

/-- The five `numeric_count` field types of line 166 of `data_cleaner.py`. -/
def numericCountField : Field → Bool
  | .current_players | .peak_24h | .peak_alltime | .playtime_avg | .playtime_median => true
  | _ => false

/-- `SteamDataCleaner.is_field_missing(value, field_type)`
(`data_cleaner.py` lines 140–173), translated branch by branch. -/
def is_field_missing (value : Value) (ft : Field) : Bool :=
  match value with
  | .null => true
  | .str s0 =>
    let s := stripChars s0.data
    if s.isEmpty || lowerEq s "n/a".data || lowerEq s "nan".data then true
    else if ft = Field.release_date &&
        (s = "N/A".data || s = "Coming Soon".data || s = "TBA".data) then true
    else if ft = Field.price && (s = "N/A".data || s = "Free".data || s = "".data) then
      false
    else if numericCountField ft then
      match parseFloatCore s with
      | some q => decide (q = 0)
      | none => true
    else false
  | .num q => if numericCountField ft then decide (q = 0) else false

/-! ### Feature Extractor (inference side):
`SteamDataCleaner._extract_features_for_prediction` -/

/-- The named feature vector built by both extractors. -/
structure Features where
  game_age_years : ℚ
  is_free : ℚ
  price_numeric : ℚ
  playtime_avg : ℚ
  playtime_median : ℚ
  playtime_price_ratio : ℚ
  current_players : ℚ
  peak_24h : ℚ
  peak_alltime : ℚ
  activity_ratio : ℚ
  historical_growth : ℚ
  deriving DecidableEq, Repr

/-- Raw-value comparison `release_date_str in ['N/A', 'Coming Soon', 'TBA', '']`
(only a string cell can equal a string literal). -/
def isDatePlaceholder (v : Value) : Bool :=
  match v with
  | .str s => s = "N/A" || s = "Coming Soon" || s = "TBA" || s = ""
  | _ => false

/-- Game age in years (`data_cleaner.py` lines 86–98).  `currentYear` models
`datetime.now().year`, a clock reading taken inside the extractor. -/
def gameAgeCleaner (currentYear : ℤ) (v : Value) : ℤ :=
  if pyTruthy v && !isDatePlaceholder v then
    match firstYearMatch (pyStr v).data with
    | some y => max 0 (currentYear - (y : ℤ))
    | none => -1
  else -1

/-- `str(price_str).lower() in ['free', '免费']` (line 102). -/
def priceIsFreeCleaner (v : Value) : Bool :=
  lowerEq (pyStr v).data "free".data || lowerEq (pyStr v).data "免费".data

/-- Numeric price (`data_cleaner.py` lines 104–113). -/
def priceNumericCleaner (v : Value) : ℚ :=
  if pyTruthy v && !(lowerEq (pyStr v).data "free".data || lowerEq (pyStr v).data "免费".data ||
      lowerEq (pyStr v).data "n/a".data || lowerEq (pyStr v).data "".data) then
    match firstNumber (pyStr v).data with
    | some q => q
    | none => 0
  else 0

/-- `float(df_row.get(col, 0) or 0)` on a cell; `none` models the NaN result
on a null cell and the `ValueError` on a non-numeric string. -/
def floatCell : Value → Option ℚ
  | .null => none
  | .num q => some q
  | .str s => if s.data.isEmpty then some 0 else parseFloatCore (stripChars s.data)

/-- `SteamDataCleaner._extract_features_for_prediction(df_row)`
(`data_cleaner.py` lines 74–138).  Returns `none` when one of the five
`float()` conversions has no rational value (NaN or unparseable text). -/
def extract_features_for_prediction (currentYear : ℤ) (r : Record) : Option Features :=
  match floatCell r.playtime_avg, floatCell r.playtime_median, floatCell r.current_players,
      floatCell r.peak_24h, floatCell r.peak_alltime with
  | some pa, some pm, some cp, some p24, some pat =>
    let pn := priceNumericCleaner r.price
    some {
      game_age_years := ((gameAgeCleaner currentYear r.release_date : ℤ) : ℚ)
      is_free := if priceIsFreeCleaner r.price then 1 else 0
      price_numeric := pn
      playtime_avg := pa
      playtime_median := pm
      playtime_price_ratio := if 0 < pn then qdiv pa pn else pa
      current_players := cp
      peak_24h := p24
      peak_alltime := pat
      activity_ratio := if 0 < p24 then qdiv cp p24 else 0
      historical_growth := if 0 < p24 then qdiv pat p24 else 0 }
  | _, _, _, _, _ => none

/-! ### Feature Extractor (training side):
`PlayerCountPredictor.extract_features` (`train_ml_model.py` lines 25–101) -/

/-- `calculate_game_age` (`train_ml_model.py` lines 38–49). -/
def calculate_game_age (currentYear : ℤ) (v : Value) : ℤ :=
  if v = Value.null || isDatePlaceholder v then -1
  else
    match firstYearMatch (pyStr v).data with
    | some y => max 0 (currentYear - (y : ℤ))
    | none => -1

/-- `pd.notna(x) and str(x).lower() in ['free', '免费']` (lines 54–56). -/
def trainer_is_free (v : Value) : Bool :=
  !(v = Value.null) && (lowerEq (pyStr v).data "free".data || lowerEq (pyStr v).data "免费".data)

/-- `extract_price` (`train_ml_model.py` lines 59–69). -/
def extract_price (v : Value) : ℚ :=
  if v = Value.null || lowerEq (pyStr v).data "free".data || lowerEq (pyStr v).data "免费".data ||
      lowerEq (pyStr v).data "n/a".data || lowerEq (pyStr v).data "".data then 0
  else
    match firstNumber (pyStr v).data with
    | some q => q
    | none => 0

/-- `pd.to_numeric(col, errors='coerce').fillna(0)` on one cell. -/
def to_numeric_fill0 : Value → ℚ
  | .null => 0
  | .num q => q
  | .str s => (parseFloatCore (stripChars s.data)).getD 0

/-- One row of `PlayerCountPredictor.extract_features`.  Note line 79: the
ratio divides by `max(price_numeric, 1)`, unlike the inference extractor. -/
def extract_features_row (currentYear : ℤ) (r : Record) : Features :=
  let pn := extract_price r.price
  let pa := to_numeric_fill0 r.playtime_avg
  let pm := to_numeric_fill0 r.playtime_median
  let cp := to_numeric_fill0 r.current_players
  let p24 := to_numeric_fill0 r.peak_24h
  let pat := to_numeric_fill0 r.peak_alltime
  { game_age_years := ((calculate_game_age currentYear r.release_date : ℤ) : ℚ)
    is_free := if trainer_is_free r.price then 1 else 0
    price_numeric := pn
    playtime_avg := pa
    playtime_median := pm
    playtime_price_ratio := if 0 < pn then qdiv pa (max pn 1) else pa
    current_players := cp
    peak_24h := p24
    peak_alltime := pat
    activity_ratio := if 0 < p24 then qdiv cp p24 else 0
    historical_growth := if 0 < p24 then qdiv pat p24 else 0 }

/-! ### Trainer: `PlayerCountPredictor` -/

/-- The three prediction targets (`targets` in `train_all_models`). -/
inductive Target where
  | current_players
  | peak_24h
  | peak_alltime
  deriving DecidableEq, Repr

/-- The feature column holding the raw target value. -/
def Features.targetVal (f : Features) : Target → ℚ
  | .current_players => f.current_players
  | .peak_24h => f.peak_24h
  | .peak_alltime => f.peak_alltime

/-- The record column a target is extracted from. -/
def targetCol : Target → Field
  | .current_players => Field.current_players
  | .peak_24h => Field.peak_24h
  | .peak_alltime => Field.peak_alltime

/-- Per-target feature subsets (`prepare_training_data`, lines 118–135). -/
def feature_cols : Target → List String
  | .current_players =>
    ["game_age_years", "is_free", "price_numeric", "playtime_avg", "playtime_median",
     "playtime_price_ratio", "peak_24h", "peak_alltime", "historical_growth"]
  | .peak_24h =>
    ["game_age_years", "is_free", "price_numeric", "playtime_avg", "playtime_median",
     "playtime_price_ratio", "current_players", "peak_alltime"]
  | .peak_alltime =>
    ["game_age_years", "is_free", "price_numeric", "playtime_avg", "playtime_median",
     "playtime_price_ratio", "current_players", "peak_24h", "activity_ratio"]

/-- The row filter of `prepare_training_data` (line 115):
`valid_mask = (df[target_field] > 0)`. -/
def prepare_training_data (rows : List Features) (t : Target) : List Features :=
  rows.filter (fun f => 0 < f.targetVal t)

/-- `PlayerCountPredictor.train_all_models` (lines 286–300): one entry per
target that reaches the 10-row threshold, carrying the (opaque) trained model
and its ordered feature columns. -/
def train_all_models {α : Type} (train_model : Target → List Features → α)
    (rows : List Features) : List (Target × α × List String) :=
  [Target.current_players, Target.peak_24h, Target.peak_alltime].foldl
    (fun acc t =>
      let X := prepare_training_data rows t
      if X.length < 10 then acc
      else acc ++ [(t, train_model t X, feature_cols t)])
    []

/-! ### Heuristic Estimator: `SteamDataCleaner._simple_estimate` -/

/-- Game age for the heuristic (`data_cleaner.py` lines 448–459): default `0`,
and the placeholder list here has no `''` entry (the truthiness test covers
the empty string). -/
def gameAgeSimple (currentYear : ℤ) (v : Value) : ℤ :=
  if pyTruthy v &&
      !(match v with | .str s => s = "N/A" || s = "Coming Soon" || s = "TBA" | _ => false) then
    match firstYearMatch (pyStr v).data with
    | some y => max 0 (currentYear - (y : ℤ))
    | none => 0
  else 0

/-- Age-banded decay factor (24h-peak → current), lines 462–470. -/
def decayFactor (age : ℤ) : ℚ :=
  if age ≤ 2 then mkRat 8 10 else if age ≤ 5 then mkRat 5 10 else mkRat 2 10

/-- Age-banded all-time factor (24h-peak → all-time), lines 462–470. -/
def alltimeFactor (age : ℤ) : ℚ :=
  if age ≤ 2 then mkRat 13 10 else if age ≤ 5 then 2 else mkRat 35 10

/-- `float(df_row.get(col, 0) or 0)` where the result only feeds `> 0`
comparisons: a NaN (null cell) compares like `0` there, so it is modelled as
`0`; a non-numeric string still raises (`none`). -/
def floatCellNaN0 : Value → Option ℚ
  | .null => some 0
  | .num q => some q
  | .str s => if s.data.isEmpty then some 0 else parseFloatCore (stripChars s.data)

/-- Lines 477–484: derive a missing `peak_24h` from `current_players / decay`
when current players are positive, else from `peak_alltime / alltime`; also
returns the updated local `peak_24h` (the derived integer, or the original). -/
def simpleStep1 (missing : List Field) (cp pat p24orig d a : ℚ) :
    List (Field × Value) × ℚ :=
  if Field.peak_24h ∈ missing then
    if 0 < cp then
      let v := pyInt (qdiv cp d)
      ([(Field.peak_24h, Value.num (v : ℚ))], (v : ℚ))
    else if 0 < pat then
      let v := pyInt (qdiv pat a)
      ([(Field.peak_24h, Value.num (v : ℚ))], (v : ℚ))
    else ([], p24orig)
  else ([], p24orig)

/-- Lines 486–490: derive still-missing `current_players` and `peak_alltime`
from the local `peak_24h` when it is positive. -/
def simpleTail (missing : List Field) (l0 : List (Field × Value)) (p24l d a : ℚ) :
    List (Field × Value) :=
  let out2 := if Field.current_players ∈ missing ∧ 0 < p24l then
      l0 ++ [(Field.current_players, Value.num ((pyInt (qmul p24l d) : ℤ) : ℚ))]
    else l0
  if Field.peak_alltime ∈ missing ∧ 0 < p24l then
    out2 ++ [(Field.peak_alltime, Value.num ((pyInt (qmul p24l a) : ℤ) : ℚ))]
  else out2

/-- `SteamDataCleaner._simple_estimate(df_row, missing_fields)`
(`data_cleaner.py` lines 435–492). -/
def simple_estimate (currentYear : ℤ) (r : Record) (missing : List Field) :
    Option (List (Field × Value)) :=
  match floatCellNaN0 r.current_players, floatCellNaN0 r.peak_24h, floatCellNaN0 r.peak_alltime with
  | some cp, some p24orig, some pat =>
    let age := gameAgeSimple currentYear r.release_date
    let s1 := simpleStep1 missing cp pat p24orig (decayFactor age) (alltimeFactor age)
    some (simpleTail missing s1.1 s1.2 (decayFactor age) (alltimeFactor age))
  | _, _, _ => none

/-! ### Model-based estimation: `SteamDataCleaner.estimate_player_fields` -/

/-- The loaded model bank (`self.ml_models`).  Each entry is the opaque
composite of `model_info['model'].predict` with the feature-vector assembly
`[[features_dict.get(col, 0) for col in feature_cols]]`; it consumes the whole
features dict and may raise (`Except.error`). -/
structure MLBank where
  current_players : Option (Features → Except String ℚ)
  peak_24h : Option (Features → Except String ℚ)
  peak_alltime : Option (Features → Except String ℚ)

/-- `not self.ml_models` — the bank dict is empty. -/
def MLBank.isEmpty (b : MLBank) : Bool :=
  b.current_players.isNone && b.peak_24h.isNone && b.peak_alltime.isNone

/-- Block 1 of `estimate_player_fields` (lines 373–392): predict `peak_24h`,
clamp with `max(0, int(prediction))`, keep only positive, update the features
dict for later predictions; a per-target exception is caught in place. -/
def predictBlock1 (bank : MLBank) (missing : List Field) (fd : Features) :
    List (Field × Value) × Features :=
  if Field.peak_24h ∈ missing then
    match bank.peak_24h with
    | some predict =>
      match predict fd with
      | .ok raw =>
        let p := max 0 (pyInt raw)
        if 0 < p then ([(Field.peak_24h, Value.num (p : ℚ))], { fd with peak_24h := (p : ℚ) })
        else ([], fd)
      | .error _ => ([], fd)
    | none => ([], fd)
  else ([], fd)

/-- Block 2 (lines 394–410): same for `current_players`. -/
def predictBlock2 (bank : MLBank) (missing : List Field) (fd : Features) :
    List (Field × Value) × Features :=
  if Field.current_players ∈ missing then
    match bank.current_players with
    | some predict =>
      match predict fd with
      | .ok raw =>
        let p := max 0 (pyInt raw)
        if 0 < p then
          ([(Field.current_players, Value.num (p : ℚ))], { fd with current_players := (p : ℚ) })
        else ([], fd)
      | .error _ => ([], fd)
    | none => ([], fd)
  else ([], fd)

/-- Block 3 (lines 412–431): recompute `activity_ratio` from the updated
dict, then predict `peak_alltime`. -/
def predictBlock3 (bank : MLBank) (missing : List Field) (fd : Features) :
    List (Field × Value) :=
  if Field.peak_alltime ∈ missing then
    match bank.peak_alltime with
    | some predict =>
      let fd2 := if 0 < fd.peak_24h then
          { fd with activity_ratio := qdiv fd.current_players fd.peak_24h } else fd
      match predict fd2 with
      | .ok raw =>
        let p := max 0 (pyInt raw)
        if 0 < p then [(Field.peak_alltime, Value.num (p : ℚ))] else []
      | .error _ => []
    | none => []
  else []

/-- `SteamDataCleaner.estimate_player_fields(df_row, missing_fields)`
(`data_cleaner.py` lines 350–433).  `none` models an exception escaping the
call (feature extraction happens outside the per-target `try` blocks). -/
def estimate_player_fields (bank : MLBank) (currentYear : ℤ) (r : Record)
    (missing : List Field) : Option (List (Field × Value)) :=
  if bank.isEmpty then simple_estimate currentYear r missing
  else
    match extract_features_for_prediction currentYear r with
    | none => none
    | some fd =>
      let s1 := predictBlock1 bank missing fd
      let s2 := predictBlock2 bank missing s1.2
      let s3 := predictBlock3 bank missing s2.2
      some (s1.1 ++ s2.1 ++ s3)

/-! ### External Completion: `SteamDataCleaner.fetch_missing_data` -/

/-- Payload of a successful `get_game_details` call, reduced to the parts
`fetch_missing_data` reads: the `release_date.date` text when present, the
`price_overview.final_formatted` text when `price_overview` is non-empty, and
the `is_free` flag. -/
structure StoreDetails where
  release_date : Option String
  price_overview : Option String
  is_free : Bool

/-- Payload of a successful `get_steamspy_data` call; an absent JSON key
defaults to `0` (`steamspy_data.get(key, 0)`), so `0` doubles as "absent". -/
structure SpyData where
  average_forever : ℚ
  median_forever : ℚ
  ccu : ℚ

/-- The responses of the three collaborators during one
`fetch_missing_data` call. -/
structure Lookups where
  details : Option StoreDetails
  spy : Option SpyData
  charts_peak24 : Option ℤ
  charts_alltime : Option ℤ

/-- The Steam-store stage (`data_cleaner.py` lines 512–532). -/
def storeStage (gd : Option StoreDetails) (missing : List Field) : List (Field × Value) :=
  match gd with
  | none => []
  | some d =>
    (if Field.release_date ∈ missing then
      match d.release_date with
      | some ds =>
        if ds.data.isEmpty = false ∧ ds ≠ "N/A" then [(Field.release_date, Value.str ds)] else []
      | none => []
    else []) ++
    (if Field.price ∈ missing then
      match d.price_overview with
      | some pf => [(Field.price, Value.str pf)]
      | none => if d.is_free then [(Field.price, Value.str "Free")] else []
    else [])

/-- The SteamSpy stage (`data_cleaner.py` lines 534–561); each write is
guarded by `value and value > 0`. -/
def spyStage (sp : Option SpyData) (missing : List Field) : List (Field × Value) :=
  match sp with
  | none => []
  | some d =>
    (if Field.playtime_avg ∈ missing ∧ 0 < d.average_forever then
      [(Field.playtime_avg, Value.num d.average_forever)] else []) ++
    (if Field.playtime_median ∈ missing ∧ 0 < d.median_forever then
      [(Field.playtime_median, Value.num d.median_forever)] else []) ++
    (if Field.current_players ∈ missing ∧ 0 < d.ccu then
      [(Field.current_players, Value.num d.ccu)] else []) ++
    (if Field.peak_24h ∈ missing ∧ 0 < d.ccu then
      [(Field.peak_24h, Value.num d.ccu)] else [])

/-- The SteamCharts stage (`data_cleaner.py` lines 563–573); the 24h write is
additionally guarded by `'24小时峰值' not in 补充数据`. -/
def chartsStage (p24 pat : Option ℤ) (missing : List Field) (acc : List (Field × Value)) :
    List (Field × Value) :=
  (match p24 with
   | some v =>
     if Field.peak_24h ∈ missing ∧ v ≠ 0 ∧
         acc.any (fun p => p.1 = Field.peak_24h) = false then
       [(Field.peak_24h, Value.num (v : ℚ))]
     else []
   | none => []) ++
  (match pat with
   | some v =>
     if Field.peak_alltime ∈ missing ∧ v ≠ 0 then
       [(Field.peak_alltime, Value.num (v : ℚ))]
     else []
   | none => [])

/-- `SteamDataCleaner.fetch_missing_data(app_id, missing_fields)`
(`data_cleaner.py` lines 494–575), as a pure function of the collaborator
responses.  The progressive dict `补充数据` is modelled by list append: no
stage ever writes a key an earlier stage wrote (proved for the claims), so
append agrees with dict assignment. -/
def fetch_missing_data (lk : Lookups) (missing : List Field) : List (Field × Value) :=
  let need_store := missing.any (fun f => f = Field.release_date || f = Field.price)
  let need_spy := missing.any (fun f =>
    f = Field.playtime_avg || f = Field.playtime_median ||
    f = Field.current_players || f = Field.peak_24h)
  let need_charts := Field.peak_alltime ∈ missing ∨ Field.peak_24h ∈ missing
  let d1 := if need_store then storeStage lk.details missing else []
  let d2 := d1 ++ (if need_spy then spyStage lk.spy missing else [])
  d2 ++ (if need_charts then chartsStage lk.charts_peak24 lk.charts_alltime missing d2 else [])

/-! ### Completion Orchestrator: the per-record body of
`SteamDataCleaner.clean_data` (`data_cleaner.py` lines 633–718) -/

/-- Terminal per-record outcome.  The source only distinguishes kept/dropped;
`salvaged` tags the kept records that went through a `'Free'` price fill
(lines 651–657 and 700–704), `intact` the records with no missing field. -/
inductive Decision where
  | intact
  | resolved
  | salvaged
  | dropped
  deriving DecidableEq, Repr

/-- Apply a completion dict to a row (`df.at[idx, field_cn] = value` in
iteration order; on duplicate keys the last write wins, like a dict). -/
def applyUpdates (r : Record) (us : List (Field × Value)) : Record :=
  us.foldl (fun acc p => acc.set p.1 p.2) r

/-- The missing-field scan of lines 638–641. -/
def missingFieldsOf (r : Record) : List Field :=
  criticalFieldsOrder.filter (fun ft => is_field_missing (r.get ft) ft)

/-- The re-scan of lines 666–670: originally-missing fields still missing
after the external updates. -/
def stillMissingAfter (r1 : Record) (missing : List Field) : List Field :=
  criticalFieldsOrder.filter (fun ft => ft ∈ missing && is_field_missing (r1.get ft) ft)

/-- Python `set(a) == set(b)` on field lists. -/
def sameSet (a b : List Field) : Bool := a.all (· ∈ b) && b.all (· ∈ a)

/-- Lines 689–695: write each estimated field and remove it from the two
tracking lists when it was listed there. -/
def applyEstimates (r1 : Record) (mp still : List Field) (est : List (Field × Value)) :
    Record × List Field × List Field :=
  est.foldl
    (fun st p =>
      let rc := st.1.set p.1 p.2
      if p.1 ∈ st.2.1 then (rc, st.2.1.erase p.1, st.2.2.erase p.1)
      else (rc, st.2.1, st.2.2))
    (r1, mp, still)

/-- Lines 700–711: the price-only salvage, then keep or drop.  `deletedEarly`
records the line-683 append to the deletion list (the all-three-missing
case), which wins over any later outcome. -/
def finalizeRecord (deletedEarly : Bool) (r : Record) (still : List Field) :
    Decision × Record :=
  if still = [Field.price] then
    (if deletedEarly then Decision.dropped else Decision.salvaged,
      r.set Field.price (Value.str "Free"))
  else if still.isEmpty = true ∧ deletedEarly = false then (Decision.resolved, r)
  else (Decision.dropped, r)

/-- Lines 651–711, after a successful `fetch_missing_data` call. -/
def processAfterFetch (estimate : Record → List Field → Except String (List (Field × Value)))
    (r : Record) (missing : List Field) (sup : List (Field × Value)) :
    Except String (Decision × Record) :=
  if missing = [Field.price] ∧
      (sup.isEmpty = true ∨ sup.any (fun p => p.1 = Field.price) = false) then
    Except.ok (Decision.salvaged, r.set Field.price (Value.str "Free"))
  else
    let r1 := applyUpdates r sup
    let still0 := stillMissingAfter r1 missing
    let mp := still0.filter (fun f => f ∈ clusterFields)
    if mp.isEmpty then Except.ok (finalizeRecord false r1 still0)
    else if sameSet mp clusterFields then Except.ok (finalizeRecord true r1 still0)
    else
      match estimate r1 mp with
      | .error e => Except.error e
      | .ok eo =>
        let res := applyEstimates r1 mp still0 eo
        let still2 := res.2.2.filter (fun f => !(f ∈ res.2.1) || is_field_missing (res.1.get f) f)
        Except.ok (finalizeRecord false res.1 still2)

/-- The body of the per-record loop (lines 633–718) up to the record-boundary
`except`: an `error` is an exception escaping the `try`. -/
def processRecordE (fetch : ℤ → List Field → Except String (List (Field × Value)))
    (estimate : Record → List Field → Except String (List (Field × Value)))
    (r : Record) : Except String (Decision × Record) :=
  let missing := missingFieldsOf r
  if missing.isEmpty then Except.ok (Decision.intact, r)
  else
    match fetch r.app_id missing with
    | .error e => Except.error e
    | .ok sup => processAfterFetch estimate r missing sup

/-- One record through the loop including the record-boundary `except` of
lines 716–718: any exception becomes a drop of that record alone. -/
def processRecord (fetch : ℤ → List Field → Except String (List (Field × Value)))
    (estimate : Record → List Field → Except String (List (Field × Value)))
    (r : Record) : Decision × Record :=
  match processRecordE fetch estimate r with
  | .ok out => out
  | .error _ => (Decision.dropped, r)

/-- The whole batch loop of `clean_data`: records are processed one by one,
each mutating only its own row. -/
def clean_batch (fetch : ℤ → List Field → Except String (List (Field × Value)))
    (estimate : Record → List Field → Except String (List (Field × Value)))
    (rs : List Record) : List (Decision × Record) :=
  rs.map (processRecord fetch estimate)

/-- Decidable equality of per-record outcomes (used to evaluate concrete
pipeline runs). -/
instance : DecidableEq (Except String (Decision × Record)) := fun a b =>
  match a, b with
  | .ok x, .ok y =>
    if h : x = y then isTrue (by rw [h]) else isFalse (by intro hh; cases hh; exact h rfl)
  | .error x, .error y =>
    if h : x = y then isTrue (by rw [h]) else isFalse (by intro hh; cases hh; exact h rfl)
  | .ok _, .error _ => isFalse (by intro hh; cases hh)
  | .error _, .ok _ => isFalse (by intro hh; cases hh)

/-! ### Concrete inputs used to instantiate the theorems -/

/-- A record priced below one currency unit, with the player-count cluster
empty except for `current_players`. -/
def recPriceHalf : Record :=
  { app_id := 570
    release_date := Value.str "Nov 1, 2018"
    price := Value.str "$0.50"
    playtime_avg := Value.num 600
    playtime_median := Value.num 400
    current_players := Value.num 50
    peak_24h := Value.num 0
    peak_alltime := Value.num 0 }

/-- The inference-side feature vector of `recPriceHalf` with clock year 2025. -/
def fHalf : Features :=
  { game_age_years := 7
    is_free := 0
    price_numeric := mkRat 1 2
    playtime_avg := 600
    playtime_median := 400
    playtime_price_ratio := qdiv 600 (mkRat 1 2)
    current_players := 50
    peak_24h := 0
    peak_alltime := 0
    activity_ratio := 0
    historical_growth := 0 }

/-- The same vector with clock year 2026: only the age moves. -/
def fHalf26 : Features := { fHalf with game_age_years := 8 }

/-- First-match lookup in a completion dict (association list). -/
def lookupField (out : List (Field × Value)) (f : Field) : Option Value :=
  match out with
  | [] => none
  | p :: rest => if p.1 = f then some p.2 else lookupField rest f

/-- Lookup in the trained model bank (`self.models[target]`). -/
def lookupModel {α : Type} (l : List (Target × α × List String)) (t : Target) :
    Option (α × List String) :=
  match l with
  | [] => none
  | p :: rest => if p.1 = t then some p.2 else lookupModel rest t

/-- A record with a fully populated player-count cluster. -/
def recPos : Record :=
  { recPriceHalf with peak_24h := Value.num 100, peak_alltime := Value.num 200 }

/-- Five copies of `recPos`: five strictly positive samples for every cluster
target — below the 10-row training threshold. -/
def recsFive : List Record := [recPos, recPos, recPos, recPos, recPos]

/-- A record whose whole player-count cluster is zero (all three classified
missing). -/
def recAllMissing : Record := { recPriceHalf with current_players := Value.num 0 }

/-- A record missing only its price, with a fully populated cluster. -/
def recPriceOnly : Record :=
  { recPriceHalf with
    price := Value.null
    peak_24h := Value.num 70
    peak_alltime := Value.num 90 }

/-- An external-completion stub that always fails (network down). -/
def fetchErr : ℤ → List Field → Except String (List (Field × Value)) :=
  fun _ _ => Except.error "net"

/-- An external-completion stub that answers with no data. -/
def fetchOkEmpty : ℤ → List Field → Except String (List (Field × Value)) :=
  fun _ _ => Except.ok []

/-- An estimation stub that supplies nothing. -/
def estOk : Record → List Field → Except String (List (Field × Value)) :=
  fun _ _ => Except.ok []

/-- A bank holding a single trained model, for `peak_24h`, that always
predicts 100. -/
def bankOne : MLBank :=
  { current_players := none
    peak_24h := some (fun _ => Except.ok 100)
    peak_alltime := none }

/-- Successful responses from all three external collaborators. -/
def lkFull : Lookups :=
  { details := some
      { release_date := some "Nov 1, 2018"
        price_overview := some "$5.99"
        is_free := false }
    spy := some { average_forever := 600, median_forever := 400, ccu := 1000 }
    charts_peak24 := some 1500
    charts_alltime := some 30000 }

/-! ## Bridge lemmas: the kernel-reducible arithmetic agrees with `ℚ` -/

theorem qmul_eq (a b : ℚ) : qmul a b = a * b := by
  rw [qmul, ← Rat.mkRat_mul_mkRat, Rat.mkRat_self, Rat.mkRat_self]

theorem qadd_eq (a b : ℚ) : qadd a b = a + b := by
  rw [qadd, ← Rat.mkRat_add_mkRat a.num b.num a.den_nz b.den_nz,
    Rat.mkRat_self, Rat.mkRat_self]

theorem qneg_eq (a : ℚ) : qneg a = -a := by
  rw [qneg]
  conv_rhs => rw [← Rat.mkRat_self (-a)]
  rw [Rat.neg_num, Rat.neg_den]

theorem qinv_eq (a : ℚ) : qinv a = a⁻¹ := (Rat.inv_def' a).symm

theorem qdiv_eq (a b : ℚ) : qdiv a b = a / b := by
  rw [qdiv, qmul_eq, qinv_eq, div_eq_mul_inv]

/-! ## Basic record lemmas -/

theorem Record.get_set_self (r : Record) (f : Field) (v : Value) :
    (r.set f v).get f = v := by
  cases f <;> rfl

/-! ## Parser helper lemmas -/

theorem parseFloatCore_nil : parseFloatCore [] = none := rfl

theorem parseFloatUnsigned_head_bad (c : Char) (t : List Char)
    (h1 : digitChar c = false) (h4 : c ≠ '.') :
    parseFloatUnsigned (c :: t) = none := by
  simp [parseFloatUnsigned, List.takeWhile_cons, List.dropWhile_cons, h1, h4]

theorem parseFloatCore_head_bad (c : Char) (t : List Char)
    (h1 : digitChar c = false) (h2 : c ≠ '-') (h3 : c ≠ '+') (h4 : c ≠ '.') :
    parseFloatCore (c :: t) = none := by
  simp [parseFloatCore, h2, h3, parseFloatUnsigned_head_bad c t h1 h4]

/-- A character whose lower-case form is `n` is neither a digit, a sign, nor
a decimal point. -/
theorem charLowerEq_n_facts (c : Char) (h : charLowerEq c 'n' = true) :
    digitChar c = false ∧ c ≠ '-' ∧ c ≠ '+' ∧ c ≠ '.' := by
  rw [charLowerEq] at h
  simp only [Bool.or_eq_true, Bool.and_eq_true, decide_eq_true_eq] at h
  rcases h with h | ⟨⟨h65, h90⟩, hplus⟩
  · subst h; refine ⟨by decide, by decide, by decide, by decide⟩
  · have h110 : c.toNat + 32 = 110 := hplus
    have hc : c.toNat = 78 := by omega
    refine ⟨?_, ?_, ?_, ?_⟩
    · simp [digitChar, hc]
    · intro he; rw [he] at hc; exact absurd hc (by decide)
    · intro he; rw [he] at hc; exact absurd hc (by decide)
    · intro he; rw [he] at hc; exact absurd hc (by decide)

/-- `lowerEq` against a non-empty target forces a head character related by
case folding. -/
theorem lowerEq_cons (s : List Char) (d : Char) (t : List Char)
    (h : lowerEq s (d :: t) = true) :
    ∃ c0 s', s = c0 :: s' ∧ charLowerEq c0 d = true := by
  cases s with
  | nil => simp [lowerEq] at h
  | cons c0 s' =>
    refine ⟨c0, s', rfl, ?_⟩
    simp only [lowerEq, List.zip_cons_cons, List.all_cons, Bool.and_eq_true] at h
    exact h.2.1

/-- A string whose lower case is `n/a` or `nan` never `float()`-parses. -/
theorem parseFloatCore_of_lowerEq_n (s : List Char)
    (h : lowerEq s "n/a".data = true ∨ lowerEq s "nan".data = true) :
    parseFloatCore s = none := by
  have head : ∃ c0 s', s = c0 :: s' ∧ charLowerEq c0 'n' = true := by
    rcases h with h | h
    · exact lowerEq_cons s 'n' "/a".data h
    · exact lowerEq_cons s 'n' "an".data h
  obtain ⟨c0, s', rfl, hc⟩ := head
  obtain ⟨h1, h2, h3, h4⟩ := charLowerEq_n_facts c0 hc
  exact parseFloatCore_head_bad c0 s' h1 h2 h3 h4

/-! ## C7 — numeric-count missing classification -/

/-- C7: for every numeric-count field (playtime_avg, playtime_median,
current_players, peak_24h, peak_alltime), `is_field_missing` returns true when
the value is null, fails to parse as a number, or parses to exactly zero, and
returns false for every value that parses to a strictly positive number. -/
theorem c7_numeric_count_classifier (v : Value) (ft : Field)
    (hft : numericCountField ft = true) :
    (v = Value.null → is_field_missing v ft = true) ∧
    (pyParsed v = none → is_field_missing v ft = true) ∧
    (pyParsed v = some 0 → is_field_missing v ft = true) ∧
    (∀ q : ℚ, pyParsed v = some q → 0 < q → is_field_missing v ft = false) := by
  have hfr : ft ≠ Field.release_date := by cases ft <;> simp_all [numericCountField]
  have hfp : ft ≠ Field.price := by cases ft <;> simp_all [numericCountField]
  have hfrb : decide (ft = Field.release_date) = false := decide_eq_false hfr
  have hfpb : decide (ft = Field.price) = false := decide_eq_false hfp
  refine ⟨?_, ?_, ?_, ?_⟩
  · intro h; subst h; rfl
  · intro h
    cases v with
    | null => rfl
    | num q => simp [pyParsed] at h
    | str s =>
      simp only [pyParsed] at h
      simp [is_field_missing, hfrb, hfpb, hft, h]
  · intro h
    cases v with
    | null => rfl
    | num q =>
      simp only [pyParsed, Option.some_inj] at h
      subst h
      simp [is_field_missing, hft]
    | str s =>
      simp only [pyParsed] at h
      simp [is_field_missing, hfrb, hfpb, hft, h]
  · intro q h hq
    cases v with
    | null => simp [pyParsed] at h
    | num q' =>
      simp only [pyParsed, Option.some_inj] at h
      subst h
      simp [is_field_missing, hft, hq.ne']
    | str s =>
      simp only [pyParsed] at h
      cases hl : stripChars s.data with
      | nil =>
        rw [hl] at h
        exact absurd h (by simp [parseFloatCore])
      | cons c0 t0 =>
        rw [hl] at h
        have hna : lowerEq (c0 :: t0) "n/a".data = false := by
          by_contra hx
          rw [Bool.not_eq_false] at hx
          rw [parseFloatCore_of_lowerEq_n _ (Or.inl hx)] at h
          cases h
        have hnan : lowerEq (c0 :: t0) "nan".data = false := by
          by_contra hx
          rw [Bool.not_eq_false] at hx
          rw [parseFloatCore_of_lowerEq_n _ (Or.inr hx)] at h
          cases h
        simp [is_field_missing, hl, hfrb, hfpb, hft, h, hna, hnan, hq.ne']

/-- Witness for C7 at concrete inputs: `5` is not missing, `0` is. -/
theorem c7_witness :
    is_field_missing (Value.num 5) Field.current_players = false ∧
    is_field_missing (Value.num 0) Field.current_players = true := by
  constructor
  · exact (c7_numeric_count_classifier (Value.num 5) Field.current_players (by decide)).2.2.2
      5 (by decide) (by norm_num)
  · exact (c7_numeric_count_classifier (Value.num 0) Field.current_players
      (by decide)).2.2.1 (by decide)

/-! ## Inversion of a successful feature extraction -/

/-- Characterisation of a successful `_extract_features_for_prediction` call:
all five `float()` conversions succeeded and the vector is built from them. -/
theorem extract_features_inv (currentYear : ℤ) (r : Record) (f : Features)
    (h : extract_features_for_prediction currentYear r = some f) :
    ∃ pa pm cp p24 pat,
      floatCell r.playtime_avg = some pa ∧ floatCell r.playtime_median = some pm ∧
      floatCell r.current_players = some cp ∧ floatCell r.peak_24h = some p24 ∧
      floatCell r.peak_alltime = some pat ∧
      f = { game_age_years := ((gameAgeCleaner currentYear r.release_date : ℤ) : ℚ)
            is_free := if priceIsFreeCleaner r.price then 1 else 0
            price_numeric := priceNumericCleaner r.price
            playtime_avg := pa
            playtime_median := pm
            playtime_price_ratio :=
              if 0 < priceNumericCleaner r.price then
                qdiv pa (priceNumericCleaner r.price) else pa
            current_players := cp
            peak_24h := p24
            peak_alltime := pat
            activity_ratio := if 0 < p24 then qdiv cp p24 else 0
            historical_growth := if 0 < p24 then qdiv pat p24 else 0 } := by
  cases h1 : floatCell r.playtime_avg with
  | none => simp [extract_features_for_prediction, h1] at h
  | some pa =>
    cases h2 : floatCell r.playtime_median with
    | none => simp [extract_features_for_prediction, h1, h2] at h
    | some pm =>
      cases h3 : floatCell r.current_players with
      | none => simp [extract_features_for_prediction, h1, h2, h3] at h
      | some cp =>
        cases h4 : floatCell r.peak_24h with
        | none => simp [extract_features_for_prediction, h1, h2, h3, h4] at h
        | some p24 =>
          cases h5 : floatCell r.peak_alltime with
          | none => simp [extract_features_for_prediction, h1, h2, h3, h4, h5] at h
          | some pat =>
            refine ⟨pa, pm, cp, p24, pat, rfl, rfl, rfl, rfl, rfl, ?_⟩
            simp only [extract_features_for_prediction, h1, h2, h3, h4, h5,
              Option.some_inj] at h
            exact h.symm

/-! ## C3 — the `playtime_price_ratio` formula -/

/-- C3 counterexample: at `recPriceHalf` the training-side extractor yields
a strictly positive `price_numeric`, yet its `playtime_price_ratio` is not
`playtime_avg / price_numeric` (it divides by `max(price_numeric, 1)`). -/
theorem c3_counterexample :
    0 < (extract_features_row 2025 recPriceHalf).price_numeric ∧
    (extract_features_row 2025 recPriceHalf).playtime_price_ratio ≠
      (extract_features_row 2025 recPriceHalf).playtime_avg /
        (extract_features_row 2025 recPriceHalf).price_numeric := by
  constructor
  · decide
  · intro hEq
    have h1 : (extract_features_row 2025 recPriceHalf).playtime_price_ratio = 600 := by decide
    have h2 : (extract_features_row 2025 recPriceHalf).playtime_avg = 600 := by decide
    have h3 : (extract_features_row 2025 recPriceHalf).price_numeric = mkRat 1 2 := by decide
    rw [h1, h2, h3] at hEq
    rw [Rat.mkRat_eq_divInt, Rat.divInt_eq_div] at hEq
    norm_num at hEq

/-- C3 amended: the spec formula (divide by `price_numeric` when positive,
else keep `playtime_avg`) holds for the inference-side extractor; the
training-side extractor instead divides by `max(price_numeric, 1)`, so the two
independent implementations disagree exactly when `0 < price_numeric < 1`. -/
theorem c3_ratio_amended (currentYear : ℤ) (r : Record) :
    (∀ f, extract_features_for_prediction currentYear r = some f →
      f.playtime_price_ratio =
        if 0 < f.price_numeric then f.playtime_avg / f.price_numeric
        else f.playtime_avg) ∧
    ((extract_features_row currentYear r).playtime_price_ratio =
      if 0 < (extract_features_row currentYear r).price_numeric then
        (extract_features_row currentYear r).playtime_avg /
          max (extract_features_row currentYear r).price_numeric 1
      else (extract_features_row currentYear r).playtime_avg) := by
  constructor
  · intro f hf
    obtain ⟨pa, pm, cp, p24, pat, h1, h2, h3, h4, h5, rfl⟩ :=
      extract_features_inv currentYear r f hf
    simp only
    split
    · exact qdiv_eq pa (priceNumericCleaner r.price)
    · rfl
  · simp only [extract_features_row]
    split
    · exact qdiv_eq _ _
    · rfl

/-- Witness for C3 (amended): the inference-side formula evaluated at
`recPriceHalf`. -/
theorem c3_witness :
    fHalf.playtime_price_ratio =
      if 0 < fHalf.price_numeric then fHalf.playtime_avg / fHalf.price_numeric
      else fHalf.playtime_avg :=
  (c3_ratio_amended 2025 recPriceHalf).1 fHalf (by decide)

/-! ## C9 — determinism of feature extraction -/

/-- C9 counterexample: the extractor reads the wall clock
(`datetime.now().year`), so two extractions on the identical record disagree
when the calendar year moved between the calls. -/
theorem c9_counterexample :
    extract_features_for_prediction 2025 recPriceHalf ≠
      extract_features_for_prediction 2026 recPriceHalf := by decide

/-- C9 amended: feature extraction is a deterministic pure function of the
record and the clock year: with the same clock year two extractions of equal
field values agree, and across different clock years every feature except
`game_age_years` still agrees. -/
theorem c9_deterministic_given_year (cy₁ cy₂ : ℤ) (r : Record) (f₁ f₂ : Features)
    (h₁ : extract_features_for_prediction cy₁ r = some f₁)
    (h₂ : extract_features_for_prediction cy₂ r = some f₂) :
    (cy₁ = cy₂ → f₁ = f₂) ∧
    f₁.is_free = f₂.is_free ∧ f₁.price_numeric = f₂.price_numeric ∧
    f₁.playtime_avg = f₂.playtime_avg ∧ f₁.playtime_median = f₂.playtime_median ∧
    f₁.playtime_price_ratio = f₂.playtime_price_ratio ∧
    f₁.current_players = f₂.current_players ∧ f₁.peak_24h = f₂.peak_24h ∧
    f₁.peak_alltime = f₂.peak_alltime ∧ f₁.activity_ratio = f₂.activity_ratio ∧
    f₁.historical_growth = f₂.historical_growth := by
  obtain ⟨pa, pm, cp, p24, pat, a1, a2, a3, a4, a5, rfl⟩ :=
    extract_features_inv cy₁ r f₁ h₁
  obtain ⟨pa', pm', cp', p24', pat', b1, b2, b3, b4, b5, rfl⟩ :=
    extract_features_inv cy₂ r f₂ h₂
  rw [a1, Option.some_inj] at b1
  rw [a2, Option.some_inj] at b2
  rw [a3, Option.some_inj] at b3
  rw [a4, Option.some_inj] at b4
  rw [a5, Option.some_inj] at b5
  subst b1; subst b2; subst b3; subst b4; subst b5
  refine ⟨fun hcy => by rw [hcy], rfl, rfl, rfl, rfl, rfl, rfl, rfl, rfl, rfl, rfl⟩

/-- Witness for C9 (amended) at `recPriceHalf` with clock years 2025 and
2026: every feature but the age coincides. -/
theorem mkRat_eq_div (n : ℤ) (d : ℕ) : mkRat n d = (n : ℚ) / (d : ℚ) := by
  rw [Rat.mkRat_eq_divInt, Rat.divInt_eq_div]
  norm_cast

theorem lookupField_nil (f : Field) : lookupField [] f = none := rfl

theorem lookupField_append (xs ys : List (Field × Value)) (f : Field) :
    lookupField (xs ++ ys) f =
      match lookupField xs f with
      | some v => some v
      | none => lookupField ys f := by
  induction xs with
  | nil => rfl
  | cons p rest ih =>
    by_cases hp : p.1 = f <;> simp [lookupField, hp, ih]

theorem c9_witness :
    ((2025 : ℤ) = 2026 → fHalf = fHalf26) ∧
    fHalf.is_free = fHalf26.is_free ∧ fHalf.price_numeric = fHalf26.price_numeric ∧
    fHalf.playtime_avg = fHalf26.playtime_avg ∧
    fHalf.playtime_median = fHalf26.playtime_median ∧
    fHalf.playtime_price_ratio = fHalf26.playtime_price_ratio ∧
    fHalf.current_players = fHalf26.current_players ∧
    fHalf.peak_24h = fHalf26.peak_24h ∧
    fHalf.peak_alltime = fHalf26.peak_alltime ∧
    fHalf.activity_ratio = fHalf26.activity_ratio ∧
    fHalf.historical_growth = fHalf26.historical_growth :=
  c9_deterministic_given_year 2025 2026 recPriceHalf fHalf fHalf26 (by decide) (by decide)

/-! ## C4 — the Heuristic Estimator -/

theorem simpleStep1_spec (missing : List Field) (cp pat p24orig d a : ℚ) :
    (simpleStep1 missing cp pat p24orig d a).1 =
      (if Field.peak_24h ∈ missing then
        (if 0 < cp then [(Field.peak_24h, Value.num ((pyInt (cp / d) : ℤ) : ℚ))]
         else if 0 < pat then [(Field.peak_24h, Value.num ((pyInt (pat / a) : ℤ) : ℚ))]
         else [])
       else []) ∧
    (simpleStep1 missing cp pat p24orig d a).2 =
      (if Field.peak_24h ∈ missing then
        (if 0 < cp then ((pyInt (cp / d) : ℤ) : ℚ)
         else if 0 < pat then ((pyInt (pat / a) : ℤ) : ℚ) else p24orig)
       else p24orig) := by
  constructor <;>
    (unfold simpleStep1; split_ifs <;> simp [qdiv_eq])

theorem simpleTail_spec (missing : List Field) (l0 : List (Field × Value)) (p24l d a : ℚ)
    (hcur : lookupField l0 Field.current_players = none)
    (hpat : lookupField l0 Field.peak_alltime = none) :
    (∀ p ∈ simpleTail missing l0 p24l d a,
      p ∈ l0 ∨ (p.1 = Field.current_players ∧ Field.current_players ∈ missing) ∨
        (p.1 = Field.peak_alltime ∧ Field.peak_alltime ∈ missing)) ∧
    lookupField (simpleTail missing l0 p24l d a) Field.peak_24h =
      lookupField l0 Field.peak_24h ∧
    lookupField (simpleTail missing l0 p24l d a) Field.current_players =
      (if Field.current_players ∈ missing ∧ 0 < p24l then
        some (Value.num ((pyInt (p24l * d) : ℤ) : ℚ)) else none) ∧
    lookupField (simpleTail missing l0 p24l d a) Field.peak_alltime =
      (if Field.peak_alltime ∈ missing ∧ 0 < p24l then
        some (Value.num ((pyInt (p24l * a) : ℤ) : ℚ)) else none) := by
  by_cases h1 : Field.current_players ∈ missing ∧ 0 < p24l
  · by_cases h2 : Field.peak_alltime ∈ missing ∧ 0 < p24l
    · refine ⟨?_, ?_, ?_, ?_⟩
      · intro p hp
        simp only [simpleTail, if_pos h1, if_pos h2, List.mem_append,
          List.mem_singleton] at hp
        rcases hp with (hp | hp) | hp
        · exact Or.inl hp
        · subst hp; exact Or.inr (Or.inl ⟨rfl, h1.1⟩)
        · subst hp; exact Or.inr (Or.inr ⟨rfl, h2.1⟩)
      · simp only [simpleTail, if_pos h1, if_pos h2]
        cases hl : lookupField l0 Field.peak_24h <;>
          simp [lookupField_append, lookupField, hl]
      · simp only [simpleTail, if_pos h1, if_pos h2]
        simp [lookupField_append, lookupField, hcur, h1, qmul_eq]
      · simp only [simpleTail, if_pos h1, if_pos h2]
        simp [lookupField_append, lookupField, hcur, hpat, h2, qmul_eq]
    · refine ⟨?_, ?_, ?_, ?_⟩
      · intro p hp
        simp only [simpleTail, if_pos h1, if_neg h2, List.mem_append,
          List.mem_singleton] at hp
        rcases hp with hp | hp
        · exact Or.inl hp
        · subst hp; exact Or.inr (Or.inl ⟨rfl, h1.1⟩)
      · simp only [simpleTail, if_pos h1, if_neg h2]
        cases hl : lookupField l0 Field.peak_24h <;>
          simp [lookupField_append, lookupField, hl]
      · simp only [simpleTail, if_pos h1, if_neg h2]
        simp [lookupField_append, lookupField, hcur, h1, qmul_eq]
      · simp only [simpleTail, if_pos h1, if_neg h2]
        simp [lookupField_append, lookupField, hpat, h2]
  · by_cases h2 : Field.peak_alltime ∈ missing ∧ 0 < p24l
    · refine ⟨?_, ?_, ?_, ?_⟩
      · intro p hp
        simp only [simpleTail, if_neg h1, if_pos h2, List.mem_append,
          List.mem_singleton] at hp
        rcases hp with hp | hp
        · exact Or.inl hp
        · subst hp; exact Or.inr (Or.inr ⟨rfl, h2.1⟩)
      · simp only [simpleTail, if_neg h1, if_pos h2]
        cases hl : lookupField l0 Field.peak_24h <;>
          simp [lookupField_append, lookupField, hl]
      · simp only [simpleTail, if_neg h1, if_pos h2]
        simp [lookupField_append, lookupField, hcur, h1]
      · simp only [simpleTail, if_neg h1, if_pos h2]
        simp [lookupField_append, lookupField, hcur, hpat, h2, qmul_eq]
    · refine ⟨?_, ?_, ?_, ?_⟩
      · intro p hp
        simp only [simpleTail, if_neg h1, if_neg h2] at hp
        exact Or.inl hp
      · simp only [simpleTail, if_neg h1, if_neg h2]
      · simp only [simpleTail, if_neg h1, if_neg h2]
        simp [hcur, h1]
      · simp only [simpleTail, if_neg h1, if_neg h2]
        simp [hpat, h2]

/-- C4: the Heuristic Estimator derives a missing `peak_24h` from
`current_players / decay_factor` when current players are positive, else from
`peak_alltime / alltime_factor` when that is positive; then, with the
observed-or-just-derived `peak_24h`, it derives
`current_players = peak_24h * decay_factor` and
`peak_alltime = peak_24h * alltime_factor` for those still missing; the
factors follow the age bands (≤ 2: 0.8 / 1.3; 3–5: 0.5 / 2.0; > 5: 0.2 / 3.5);
it only writes targets listed as missing (never overwrites a present one);
and on the spec's concrete scenario (age 7 record, current players 50, both
peaks missing) it yields `peak_24h = 250` and `peak_alltime = 875`. -/
theorem c4_simple_estimate (currentYear : ℤ) (r : Record) (missing : List Field)
    (out : List (Field × Value)) (cp p24 pat p24eff : ℚ) (age : ℤ) (d a : ℚ)
    (hage : age = gameAgeSimple currentYear r.release_date)
    (hd : d = decayFactor age) (ha : a = alltimeFactor age)
    (hcp : floatCellNaN0 r.current_players = some cp)
    (hp24v : floatCellNaN0 r.peak_24h = some p24)
    (hpatv : floatCellNaN0 r.peak_alltime = some pat)
    (hp24eff : p24eff =
      (if Field.peak_24h ∈ missing then
        (if 0 < cp then ((pyInt (cp / d) : ℤ) : ℚ)
         else if 0 < pat then ((pyInt (pat / a) : ℤ) : ℚ) else p24)
       else p24))
    (h : simple_estimate currentYear r missing = some out) :
    (∀ p ∈ out, p.1 ∈ missing) ∧
    (age ≤ 2 → d = 8 / 10 ∧ a = 13 / 10) ∧
    (2 < age → age ≤ 5 → d = 5 / 10 ∧ a = 2) ∧
    (5 < age → d = 2 / 10 ∧ a = 35 / 10) ∧
    lookupField out Field.peak_24h =
      (if Field.peak_24h ∈ missing then
        (if 0 < cp then some (Value.num ((pyInt (cp / d) : ℤ) : ℚ))
         else if 0 < pat then some (Value.num ((pyInt (pat / a) : ℤ) : ℚ))
         else none)
       else none) ∧
    lookupField out Field.current_players =
      (if Field.current_players ∈ missing ∧ 0 < p24eff then
        some (Value.num ((pyInt (p24eff * d) : ℤ) : ℚ)) else none) ∧
    lookupField out Field.peak_alltime =
      (if Field.peak_alltime ∈ missing ∧ 0 < p24eff then
        some (Value.num ((pyInt (p24eff * a) : ℤ) : ℚ)) else none) ∧
    simple_estimate 2025 recPriceHalf [Field.peak_24h, Field.peak_alltime] =
      some [(Field.peak_24h, Value.num 250), (Field.peak_alltime, Value.num 875)] := by
  subst hage; subst hd; subst ha; subst hp24eff
  simp only [simple_estimate, hcp, hp24v, hpatv, Option.some_inj] at h
  subst h
  set G := gameAgeSimple currentYear r.release_date with hG
  obtain ⟨hs1a, hs1b⟩ :=
    simpleStep1_spec missing cp pat p24 (decayFactor G) (alltimeFactor G)
  have hcur0 : lookupField (simpleStep1 missing cp pat p24 (decayFactor G)
      (alltimeFactor G)).1 Field.current_players = none := by
    rw [hs1a]; split_ifs <;> simp [lookupField]
  have hpat0 : lookupField (simpleStep1 missing cp pat p24 (decayFactor G)
      (alltimeFactor G)).1 Field.peak_alltime = none := by
    rw [hs1a]; split_ifs <;> simp [lookupField]
  obtain ⟨tm, t24, tc, tp⟩ :=
    simpleTail_spec missing
      (simpleStep1 missing cp pat p24 (decayFactor G) (alltimeFactor G)).1
      (simpleStep1 missing cp pat p24 (decayFactor G) (alltimeFactor G)).2
      (decayFactor G) (alltimeFactor G) hcur0 hpat0
  refine ⟨?_, ?_, ?_, ?_, ?_, ?_, ?_, by decide⟩
  · intro p hp
    rcases tm p hp with hp0 | hp0 | hp0
    · rw [hs1a] at hp0
      split_ifs at hp0 with hm hc hpt <;> simp at hp0 <;> (rw [hp0]; exact hm)
    · rw [hp0.1]; exact hp0.2
    · rw [hp0.1]; exact hp0.2
  · intro hband
    constructor
    · rw [decayFactor, if_pos hband, mkRat_eq_div]; norm_num
    · rw [alltimeFactor, if_pos hband, mkRat_eq_div]; norm_num
  · intro hgt hle
    constructor
    · rw [decayFactor, if_neg (by omega), if_pos hle, mkRat_eq_div]; norm_num
    · rw [alltimeFactor, if_neg (by omega), if_pos hle]
  · intro hgt
    constructor
    · rw [decayFactor, if_neg (by omega), if_neg (by omega), mkRat_eq_div]; norm_num
    · rw [alltimeFactor, if_neg (by omega), if_neg (by omega), mkRat_eq_div]; norm_num
  · rw [t24, hs1a]
    split_ifs <;> simp [lookupField]
  · rw [tc, hs1b]
  · rw [tp, hs1b]

/-- Witness for C4: the spec's scenario record (age 7, current players 50,
both peaks missing) is an admissible input, and the estimator produces
`peak_24h = 250`, `peak_alltime = 875` there. -/
theorem c4_witness :
    simple_estimate 2025 recPriceHalf [Field.peak_24h, Field.peak_alltime] =
      some [(Field.peak_24h, Value.num 250), (Field.peak_alltime, Value.num 875)] :=
  (c4_simple_estimate 2025 recPriceHalf [Field.peak_24h, Field.peak_alltime]
    [(Field.peak_24h, Value.num 250), (Field.peak_alltime, Value.num 875)]
    50 0 0
    (if Field.peak_24h ∈ [Field.peak_24h, Field.peak_alltime] then
      (if (0 : ℚ) < 50 then ((pyInt ((50 : ℚ) / decayFactor 7) : ℤ) : ℚ)
       else if (0 : ℚ) < 0 then ((pyInt ((0 : ℚ) / alltimeFactor 7) : ℤ) : ℚ) else 0)
     else 0)
    7 (decayFactor 7) (alltimeFactor 7)
    (by decide) rfl rfl (by decide) (by decide) (by decide) rfl (by decide)).2.2.2.2.2.2.2

/-! ## C5 — Trainer: positive-sample filter and the 10-row threshold -/

theorem filter_map_comm {β γ : Type} (f : β → γ) (p : γ → Bool) (l : List β) :
    (l.map f).filter p = (l.filter (fun b => p (f b))).map f := by
  induction l with
  | nil => rfl
  | cons b rest ih => by_cases hb : p (f b) = true <;> simp [hb, ih]

/-- The target feature of a trainer row is the `to_numeric(...).fillna(0)`
image of the raw target cell. -/
theorem extract_features_row_targetVal (currentYear : ℤ) (r : Record) (t : Target) :
    (extract_features_row currentYear r).targetVal t =
      to_numeric_fill0 (r.get (targetCol t)) := by
  cases t <;> rfl

/-- A target has an entry in the trained bank exactly when its filtered
training set reaches 10 rows. -/
theorem train_all_models_lookup {α : Type} (trainer : Target → List Features → α)
    (rows : List Features) (t : Target) :
    (∃ e, lookupModel (train_all_models trainer rows) t = some e) ↔
      ¬ ((prepare_training_data rows t).length < 10) := by
  rcases t <;>
    by_cases h1 : (prepare_training_data rows Target.current_players).length < 10 <;>
    by_cases h2 : (prepare_training_data rows Target.peak_24h).length < 10 <;>
    by_cases h3 : (prepare_training_data rows Target.peak_alltime).length < 10 <;>
    simp [train_all_models, lookupModel, h1, h2, h3]

/-- C5: the Trainer trains each cluster target on exactly the reference rows
whose raw target value is strictly positive (zero and missing excluded as 0),
and a ModelEntry for that target exists in the persisted bank if and only if
at least 10 such rows exist; on a concrete reference set with only 5 positive
`peak_24h` samples, no ModelEntry is produced. -/
theorem c5_trainer_threshold {α : Type} (trainer : Target → List Features → α)
    (currentYear : ℤ) (records : List Record) (t : Target) :
    prepare_training_data (records.map (extract_features_row currentYear)) t =
      (records.filter
        (fun r => 0 < to_numeric_fill0 (r.get (targetCol t)))).map
        (extract_features_row currentYear) ∧
    ((∃ e, lookupModel
        (train_all_models trainer (records.map (extract_features_row currentYear))) t =
          some e) ↔
      10 ≤ (records.filter
        (fun r => 0 < to_numeric_fill0 (r.get (targetCol t)))).length) ∧
    lookupModel (train_all_models (fun _ _ => (0 : ℕ))
      (recsFive.map (extract_features_row 2025))) Target.peak_24h = none := by
  have hfilter : prepare_training_data (records.map (extract_features_row currentYear)) t =
      (records.filter
        (fun r => 0 < to_numeric_fill0 (r.get (targetCol t)))).map
        (extract_features_row currentYear) := by
    rw [prepare_training_data, filter_map_comm]
    congr 1
    apply List.filter_congr
    intro r _
    rw [extract_features_row_targetVal]
  refine ⟨hfilter, ?_, by decide⟩
  rw [train_all_models_lookup]
  rw [hfilter, List.length_map]
  omega

/-- Witness for C5: five positive `peak_24h` samples yield no ModelEntry. -/
theorem c5_witness :
    lookupModel (train_all_models (fun _ _ => (0 : ℕ))
      (recsFive.map (extract_features_row 2025))) Target.peak_24h = none :=
  (c5_trainer_threshold (fun _ _ => (0 : ℕ)) 2025 recsFive Target.peak_24h).2.2

/-! ## C8 — External Completion supplies only requested fields, never
overwriting an earlier source -/

theorem storeStage_mem (gd : Option StoreDetails) (missing : List Field)
    (p : Field × Value) (hp : p ∈ storeStage gd missing) :
    (p.1 = Field.release_date ∨ p.1 = Field.price) ∧ p.1 ∈ missing := by
  cases gd with
  | none => simp [storeStage] at hp
  | some d =>
    simp only [storeStage, List.mem_append] at hp
    rcases hp with hp | hp
    · by_cases h1 : Field.release_date ∈ missing
      · rw [if_pos h1] at hp
        split at hp
        · split_ifs at hp with h2
          · simp at hp; rw [hp]; exact ⟨Or.inl rfl, h1⟩
          · simp at hp
        · simp at hp
      · rw [if_neg h1] at hp; simp at hp
    · by_cases h1 : Field.price ∈ missing
      · rw [if_pos h1] at hp
        split at hp
        · simp at hp; rw [hp]; exact ⟨Or.inr rfl, h1⟩
        · split_ifs at hp with h2
          · simp at hp; rw [hp]; exact ⟨Or.inr rfl, h1⟩
          · simp at hp
      · rw [if_neg h1] at hp; simp at hp

theorem spyStage_mem (sp : Option SpyData) (missing : List Field)
    (p : Field × Value) (hp : p ∈ spyStage sp missing) :
    (p.1 = Field.playtime_avg ∨ p.1 = Field.playtime_median ∨
      p.1 = Field.current_players ∨ p.1 = Field.peak_24h) ∧ p.1 ∈ missing := by
  cases sp with
  | none => simp [spyStage] at hp
  | some d =>
    simp only [spyStage, List.mem_append] at hp
    rcases hp with ((hp | hp) | hp) | hp <;> split_ifs at hp with h <;> simp at hp
    · rw [hp]; exact ⟨Or.inl rfl, h.1⟩
    · rw [hp]; exact ⟨Or.inr (Or.inl rfl), h.1⟩
    · rw [hp]; exact ⟨Or.inr (Or.inr (Or.inl rfl)), h.1⟩
    · rw [hp]; exact ⟨Or.inr (Or.inr (Or.inr rfl)), h.1⟩

theorem chartsStage_mem (p24 pat : Option ℤ) (missing : List Field)
    (acc : List (Field × Value)) (p : Field × Value)
    (hp : p ∈ chartsStage p24 pat missing acc) :
    ((p.1 = Field.peak_24h ∧ acc.any (fun q => q.1 = Field.peak_24h) = false) ∨
      p.1 = Field.peak_alltime) ∧ p.1 ∈ missing := by
  simp only [chartsStage, List.mem_append] at hp
  rcases hp with hp | hp
  · split at hp
    · split_ifs at hp with h
      · simp at hp; rw [hp]; exact ⟨Or.inl ⟨rfl, h.2.2⟩, h.1⟩
      · simp at hp
    · simp at hp
  · split at hp
    · split_ifs at hp with h
      · simp at hp; rw [hp]; exact ⟨Or.inr rfl, h.1⟩
      · simp at hp
    · simp at hp

theorem storeStage_keys (gd : Option StoreDetails) (missing : List Field) :
    ((storeStage gd missing).map Prod.fst).Sublist [Field.release_date, Field.price] := by
  cases gd with
  | none => simp [storeStage]
  | some d =>
    simp only [storeStage, List.map_append]
    have hA : ((if Field.release_date ∈ missing then
        match d.release_date with
        | some ds =>
          if ds.data.isEmpty = false ∧ ds ≠ "N/A" then [(Field.release_date, Value.str ds)]
          else []
        | none => []
      else []).map Prod.fst).Sublist [Field.release_date] := by
      by_cases h1 : Field.release_date ∈ missing
      · rw [if_pos h1]
        split
        · split_ifs <;> simp
        · simp
      · rw [if_neg h1]; simp
    have hB : ((if Field.price ∈ missing then
        match d.price_overview with
        | some pf => [(Field.price, Value.str pf)]
        | none => if d.is_free then [(Field.price, Value.str "Free")] else []
      else []).map Prod.fst).Sublist [Field.price] := by
      by_cases h1 : Field.price ∈ missing
      · rw [if_pos h1]
        split
        · simp
        · split_ifs <;> simp
      · rw [if_neg h1]; simp
    simpa using hA.append hB

theorem spyStage_keys (sp : Option SpyData) (missing : List Field) :
    ((spyStage sp missing).map Prod.fst).Sublist
      [Field.playtime_avg, Field.playtime_median, Field.current_players, Field.peak_24h] := by
  cases sp with
  | none => simp [spyStage]
  | some d =>
    simp only [spyStage, List.map_append]
    have hA : ((if Field.playtime_avg ∈ missing ∧ 0 < d.average_forever then
        [(Field.playtime_avg, Value.num d.average_forever)] else []).map
          Prod.fst).Sublist [Field.playtime_avg] := by split_ifs <;> simp
    have hB : ((if Field.playtime_median ∈ missing ∧ 0 < d.median_forever then
        [(Field.playtime_median, Value.num d.median_forever)] else []).map
          Prod.fst).Sublist [Field.playtime_median] := by split_ifs <;> simp
    have hC : ((if Field.current_players ∈ missing ∧ 0 < d.ccu then
        [(Field.current_players, Value.num d.ccu)] else []).map
          Prod.fst).Sublist [Field.current_players] := by split_ifs <;> simp
    have hD : ((if Field.peak_24h ∈ missing ∧ 0 < d.ccu then
        [(Field.peak_24h, Value.num d.ccu)] else []).map
          Prod.fst).Sublist [Field.peak_24h] := by split_ifs <;> simp
    simpa using hA.append (hB.append (hC.append hD))

theorem chartsStage_keys (p24 pat : Option ℤ) (missing : List Field)
    (acc : List (Field × Value)) :
    ((chartsStage p24 pat missing acc).map Prod.fst).Sublist
      [Field.peak_24h, Field.peak_alltime] := by
  simp only [chartsStage, List.map_append]
  have hA : ((match p24 with
      | some v =>
        if Field.peak_24h ∈ missing ∧ v ≠ 0 ∧
            acc.any (fun p => p.1 = Field.peak_24h) = false then
          [(Field.peak_24h, Value.num (v : ℚ))]
        else []
      | none => []).map Prod.fst).Sublist [Field.peak_24h] := by
    split <;> (try split_ifs) <;> simp
  have hB : ((match pat with
      | some v =>
        if Field.peak_alltime ∈ missing ∧ v ≠ 0 then
          [(Field.peak_alltime, Value.num (v : ℚ))]
        else []
      | none => []).map Prod.fst).Sublist [Field.peak_alltime] := by
    split <;> (try split_ifs) <;> simp
  simpa using hA.append hB

/-- C8: within one external-completion call, every supplied pair belongs to a
requested (missing) field, and the field keys of the result are pairwise
distinct — no source ever writes a field an earlier source in the
store → aggregate-stats → charts order already supplied. -/
theorem c8_fetch_missing_data (lk : Lookups) (missing : List Field) :
    (∀ p ∈ fetch_missing_data lk missing, p.1 ∈ missing) ∧
    ((fetch_missing_data lk missing).map Prod.fst).Nodup := by
  simp only [fetch_missing_data]
  set d1 := (if missing.any (fun f => f = Field.release_date || f = Field.price) then
    storeStage lk.details missing else []) with hd1
  set s2 := (if missing.any (fun f =>
      f = Field.playtime_avg || f = Field.playtime_median ||
      f = Field.current_players || f = Field.peak_24h) then
    spyStage lk.spy missing else []) with hs2
  set c3 := (if Field.peak_alltime ∈ missing ∨ Field.peak_24h ∈ missing then
    chartsStage lk.charts_peak24 lk.charts_alltime missing (d1 ++ s2) else []) with hc3
  have hd1mem : ∀ p ∈ d1, (p.1 = Field.release_date ∨ p.1 = Field.price) ∧ p.1 ∈ missing := by
    intro p hp
    rw [hd1] at hp
    split_ifs at hp with h
    · exact storeStage_mem lk.details missing p hp
    · simp at hp
  have hs2mem : ∀ p ∈ s2, (p.1 = Field.playtime_avg ∨ p.1 = Field.playtime_median ∨
      p.1 = Field.current_players ∨ p.1 = Field.peak_24h) ∧ p.1 ∈ missing := by
    intro p hp
    rw [hs2] at hp
    split_ifs at hp with h
    · exact spyStage_mem lk.spy missing p hp
    · simp at hp
  have hc3mem : ∀ p ∈ c3,
      ((p.1 = Field.peak_24h ∧
          (d1 ++ s2).any (fun q => q.1 = Field.peak_24h) = false) ∨
        p.1 = Field.peak_alltime) ∧ p.1 ∈ missing := by
    intro p hp
    rw [hc3] at hp
    split_ifs at hp with h
    · exact chartsStage_mem lk.charts_peak24 lk.charts_alltime missing (d1 ++ s2) p hp
    · simp at hp
  constructor
  · intro p hp
    simp only [List.mem_append] at hp
    rcases hp with (hp | hp) | hp
    · exact (hd1mem p hp).2
    · exact (hs2mem p hp).2
    · exact (hc3mem p hp).2
  · have hd1keys : (d1.map Prod.fst).Sublist [Field.release_date, Field.price] := by
      rw [hd1]; split_ifs
      · exact storeStage_keys lk.details missing
      · simp
    have hs2keys : (s2.map Prod.fst).Sublist
        [Field.playtime_avg, Field.playtime_median, Field.current_players,
          Field.peak_24h] := by
      rw [hs2]; split_ifs
      · exact spyStage_keys lk.spy missing
      · simp
    have hc3keys : (c3.map Prod.fst).Sublist [Field.peak_24h, Field.peak_alltime] := by
      rw [hc3]; split_ifs
      · exact chartsStage_keys lk.charts_peak24 lk.charts_alltime missing (d1 ++ s2)
      · simp
    rw [List.map_append, List.map_append, List.nodup_append, List.nodup_append]
    refine ⟨⟨hd1keys.nodup (by decide), hs2keys.nodup (by decide), ?_⟩,
      hc3keys.nodup (by decide), ?_⟩
    · intro k hk1 hk2
      obtain ⟨p, hp, rfl⟩ := List.mem_map.mp hk1
      obtain ⟨q, hq, hkq⟩ := List.mem_map.mp hk2
      rcases (hd1mem p hp).1 with h | h <;> rcases (hs2mem q hq).1 with g | g | g | g <;>
        rw [h] at hkq <;> rw [g] at hkq <;> cases hkq
    · intro k hk1 hk2
      simp only [List.mem_append] at hk1
      obtain ⟨q, hq, hkq⟩ := List.mem_map.mp hk2
      rcases (hc3mem q hq).1 with ⟨g, gany⟩ | g
      · -- the 24h write is guarded against an existing 24h key
        rw [g] at hkq
        subst hkq
        have : ∃ p ∈ d1 ++ s2, p.1 = Field.peak_24h := by
          rcases hk1 with hk | hk
          · obtain ⟨p, hp, hkp⟩ := List.mem_map.mp hk
            exact ⟨p, List.mem_append.mpr (Or.inl hp), hkp⟩
          · obtain ⟨p, hp, hkp⟩ := List.mem_map.mp hk
            exact ⟨p, List.mem_append.mpr (Or.inr hp), hkp⟩
        rw [List.any_eq_false] at gany
        obtain ⟨p, hp, hkp⟩ := this
        exact absurd (by simpa using hkp) (by simpa using gany p hp)
      · -- peak_alltime is never written by the first two stages
        rw [g] at hkq
        subst hkq
        rcases hk1 with hk | hk
        · obtain ⟨p, hp, hkp⟩ := List.mem_map.mp hk
          rcases (hd1mem p hp).1 with h | h <;> rw [h] at hkp <;> cases hkp
        · obtain ⟨p, hp, hkp⟩ := List.mem_map.mp hk
          rcases (hs2mem p hp).1 with h | h | h | h <;> rw [h] at hkp <;> cases hkp

/-- Witness for C8: with every collaborator answering and all seven fields
requested, the supplied keys are pairwise distinct. -/
theorem c8_witness :
    ((fetch_missing_data lkFull criticalFieldsOrder).map Prod.fst).Nodup :=
  (c8_fetch_missing_data lkFull criticalFieldsOrder).2

/-! ## C10 — model-based estimation writes only positive clamped
predictions for missing targets -/

theorem predictBlock1_shape (bank : MLBank) (missing : List Field) (fd : Features) :
    (predictBlock1 bank missing fd).1 = [] ∨
    (Field.peak_24h ∈ missing ∧ ∃ q : ℚ, 0 < max 0 (pyInt q) ∧
      (predictBlock1 bank missing fd).1 =
        [(Field.peak_24h, Value.num ((max 0 (pyInt q) : ℤ) : ℚ))]) := by
  by_cases hmem : Field.peak_24h ∈ missing
  · cases hb : bank.peak_24h with
    | none => left; simp [predictBlock1, hmem, hb]
    | some m =>
      cases hq : m fd with
      | error e => left; simp [predictBlock1, hmem, hb, hq]
      | ok q =>
        by_cases hp : 0 < max 0 (pyInt q)
        · right; exact ⟨hmem, q, hp, by simp [predictBlock1, hmem, hb, hq, hp]⟩
        · left; simp [predictBlock1, hmem, hb, hq, hp]
  · left; simp [predictBlock1, hmem]

theorem predictBlock2_shape (bank : MLBank) (missing : List Field) (fd : Features) :
    (predictBlock2 bank missing fd).1 = [] ∨
    (Field.current_players ∈ missing ∧ ∃ q : ℚ, 0 < max 0 (pyInt q) ∧
      (predictBlock2 bank missing fd).1 =
        [(Field.current_players, Value.num ((max 0 (pyInt q) : ℤ) : ℚ))]) := by
  by_cases hmem : Field.current_players ∈ missing
  · cases hb : bank.current_players with
    | none => left; simp [predictBlock2, hmem, hb]
    | some m =>
      cases hq : m fd with
      | error e => left; simp [predictBlock2, hmem, hb, hq]
      | ok q =>
        by_cases hp : 0 < max 0 (pyInt q)
        · right; exact ⟨hmem, q, hp, by simp [predictBlock2, hmem, hb, hq, hp]⟩
        · left; simp [predictBlock2, hmem, hb, hq, hp]
  · left; simp [predictBlock2, hmem]

theorem predictBlock3_shape (bank : MLBank) (missing : List Field) (fd : Features) :
    predictBlock3 bank missing fd = [] ∨
    (Field.peak_alltime ∈ missing ∧ ∃ q : ℚ, 0 < max 0 (pyInt q) ∧
      predictBlock3 bank missing fd =
        [(Field.peak_alltime, Value.num ((max 0 (pyInt q) : ℤ) : ℚ))]) := by
  by_cases hmem : Field.peak_alltime ∈ missing
  · cases hb : bank.peak_alltime with
    | none => left; simp [predictBlock3, hmem, hb]
    | some m =>
      cases hq : m (if 0 < fd.peak_24h then
          { fd with activity_ratio := qdiv fd.current_players fd.peak_24h } else fd) with
      | error e => left; simp [predictBlock3, hmem, hb, hq]
      | ok q =>
        by_cases hp : 0 < max 0 (pyInt q)
        · right; exact ⟨hmem, q, hp, by simp [predictBlock3, hmem, hb, hq, hp]⟩
        · left; simp [predictBlock3, hmem, hb, hq, hp]
  · left; simp [predictBlock3, hmem]

theorem predictBlock1_lookup (bank : MLBank) (missing : List Field) (fd : Features) :
    lookupField (predictBlock1 bank missing fd).1 Field.peak_24h =
      (if Field.peak_24h ∈ missing then
        match bank.peak_24h with
        | some m =>
          match m fd with
          | Except.ok q =>
            if 0 < max 0 (pyInt q) then
              some (Value.num ((max 0 (pyInt q) : ℤ) : ℚ))
            else none
          | Except.error _ => none
        | none => none
      else none) := by
  by_cases hmem : Field.peak_24h ∈ missing
  · cases hb : bank.peak_24h with
    | none => simp [predictBlock1, lookupField, hmem, hb]
    | some m =>
      cases hq : m fd with
      | error e => simp [predictBlock1, lookupField, hmem, hb, hq]
      | ok q =>
        by_cases hp : 0 < max 0 (pyInt q)
        · simp [predictBlock1, lookupField, hmem, hb, hq, hp]
        · simp [predictBlock1, lookupField, hmem, hb, hq, hp]
  · simp [predictBlock1, lookupField, hmem]

theorem predictBlock2_lookup (bank : MLBank) (missing : List Field) (fd : Features) :
    lookupField (predictBlock2 bank missing fd).1 Field.current_players =
      (if Field.current_players ∈ missing then
        match bank.current_players with
        | some m =>
          match m fd with
          | Except.ok q =>
            if 0 < max 0 (pyInt q) then
              some (Value.num ((max 0 (pyInt q) : ℤ) : ℚ))
            else none
          | Except.error _ => none
        | none => none
      else none) := by
  by_cases hmem : Field.current_players ∈ missing
  · cases hb : bank.current_players with
    | none => simp [predictBlock2, lookupField, hmem, hb]
    | some m =>
      cases hq : m fd with
      | error e => simp [predictBlock2, lookupField, hmem, hb, hq]
      | ok q =>
        by_cases hp : 0 < max 0 (pyInt q)
        · simp [predictBlock2, lookupField, hmem, hb, hq, hp]
        · simp [predictBlock2, lookupField, hmem, hb, hq, hp]
  · simp [predictBlock2, lookupField, hmem]

theorem predictBlock3_lookup (bank : MLBank) (missing : List Field) (fd : Features) :
    lookupField (predictBlock3 bank missing fd) Field.peak_alltime =
      (if Field.peak_alltime ∈ missing then
        match bank.peak_alltime with
        | some m =>
          match m (if 0 < fd.peak_24h then
              { fd with activity_ratio := fd.current_players / fd.peak_24h } else fd) with
          | Except.ok q =>
            if 0 < max 0 (pyInt q) then
              some (Value.num ((max 0 (pyInt q) : ℤ) : ℚ))
            else none
          | Except.error _ => none
        | none => none
      else none) := by
  have hfd2 : (if 0 < fd.peak_24h then
      { fd with activity_ratio := fd.current_players / fd.peak_24h } else fd) =
      (if 0 < fd.peak_24h then
        { fd with activity_ratio := qdiv fd.current_players fd.peak_24h } else fd) := by
    rw [qdiv_eq]
  rw [hfd2]
  by_cases hmem : Field.peak_alltime ∈ missing
  · cases hb : bank.peak_alltime with
    | none => simp [predictBlock3, lookupField, hmem, hb]
    | some m =>
      cases hq : m (if 0 < fd.peak_24h then
          { fd with activity_ratio := qdiv fd.current_players fd.peak_24h } else fd) with
      | error e => simp [predictBlock3, lookupField, hmem, hb, hq]
      | ok q =>
        by_cases hp : 0 < max 0 (pyInt q)
        · simp [predictBlock3, lookupField, hmem, hb, hq, hp]
        · simp [predictBlock3, lookupField, hmem, hb, hq, hp]
  · simp [predictBlock3, lookupField, hmem]

/-- C10: with at least one model loaded, `estimate_player_fields` writes a
cluster target only when `max(0, int(prediction))` is strictly positive
(writing exactly that clamped value); a prediction clamping to zero or a
per-target exception leaves the target unsupplied, and a target not listed
as missing is never written, with the three predictions staged through the
progressively updated feature dict. -/
theorem c10_model_estimation (bank : MLBank) (currentYear : ℤ) (r : Record)
    (missing : List Field) (out : List (Field × Value)) (fd : Features)
    (hne : bank.isEmpty = false)
    (hfd : extract_features_for_prediction currentYear r = some fd)
    (h : estimate_player_fields bank currentYear r missing = some out) :
    (∀ p ∈ out, p.1 ∈ missing ∧ p.1 ∈ clusterFields) ∧
    (∀ p ∈ out, ∃ q : ℚ, 0 < max 0 (pyInt q) ∧
      p.2 = Value.num ((max 0 (pyInt q) : ℤ) : ℚ)) ∧
    lookupField out Field.peak_24h =
      (if Field.peak_24h ∈ missing then
        match bank.peak_24h with
        | some m =>
          match m fd with
          | Except.ok q =>
            if 0 < max 0 (pyInt q) then
              some (Value.num ((max 0 (pyInt q) : ℤ) : ℚ))
            else none
          | Except.error _ => none
        | none => none
      else none) ∧
    lookupField out Field.current_players =
      (if Field.current_players ∈ missing then
        match bank.current_players with
        | some m =>
          match m (predictBlock1 bank missing fd).2 with
          | Except.ok q =>
            if 0 < max 0 (pyInt q) then
              some (Value.num ((max 0 (pyInt q) : ℤ) : ℚ))
            else none
          | Except.error _ => none
        | none => none
      else none) ∧
    lookupField out Field.peak_alltime =
      (if Field.peak_alltime ∈ missing then
        match bank.peak_alltime with
        | some m =>
          match m
            (if 0 < (predictBlock2 bank missing (predictBlock1 bank missing fd).2).2.peak_24h then
              { (predictBlock2 bank missing (predictBlock1 bank missing fd).2).2 with
                  activity_ratio :=
                    (predictBlock2 bank missing (predictBlock1 bank missing fd).2).2.current_players /
                      (predictBlock2 bank missing (predictBlock1 bank missing fd).2).2.peak_24h }
            else (predictBlock2 bank missing (predictBlock1 bank missing fd).2).2) with
          | Except.ok q =>
            if 0 < max 0 (pyInt q) then
              some (Value.num ((max 0 (pyInt q) : ℤ) : ℚ))
            else none
          | Except.error _ => none
        | none => none
      else none) := by
  simp only [estimate_player_fields, hne, hfd, Bool.false_eq_true, if_false,
    Option.some_inj] at h
  subst h
  set b1 := predictBlock1 bank missing fd with hb1
  set b2 := predictBlock2 bank missing b1.2 with hb2
  set b3 := predictBlock3 bank missing b2.2 with hb3
  have s1 := predictBlock1_shape bank missing fd
  have s2 := predictBlock2_shape bank missing b1.2
  have s3 := predictBlock3_shape bank missing b2.2
  rw [← hb1] at s1
  rw [← hb2] at s2
  rw [← hb3] at s3
  refine ⟨?_, ?_, ?_, ?_, ?_⟩
  · intro p hp
    simp only [List.mem_append] at hp
    rcases hp with (hp | hp) | hp
    · rcases s1 with hs | ⟨hm, q, hq, hs⟩
      · rw [hs] at hp; exact absurd hp (List.not_mem_nil p)
      · rw [hs, List.mem_singleton] at hp
        rw [hp]; exact ⟨hm, by simp [clusterFields]⟩
    · rcases s2 with hs | ⟨hm, q, hq, hs⟩
      · rw [hs] at hp; exact absurd hp (List.not_mem_nil p)
      · rw [hs, List.mem_singleton] at hp
        rw [hp]; exact ⟨hm, by simp [clusterFields]⟩
    · rcases s3 with hs | ⟨hm, q, hq, hs⟩
      · rw [hs] at hp; exact absurd hp (List.not_mem_nil p)
      · rw [hs, List.mem_singleton] at hp
        rw [hp]; exact ⟨hm, by simp [clusterFields]⟩
  · intro p hp
    simp only [List.mem_append] at hp
    rcases hp with (hp | hp) | hp
    · rcases s1 with hs | ⟨hm, q, hq, hs⟩
      · rw [hs] at hp; exact absurd hp (List.not_mem_nil p)
      · rw [hs, List.mem_singleton] at hp
        exact ⟨q, hq, by rw [hp]⟩
    · rcases s2 with hs | ⟨hm, q, hq, hs⟩
      · rw [hs] at hp; exact absurd hp (List.not_mem_nil p)
      · rw [hs, List.mem_singleton] at hp
        exact ⟨q, hq, by rw [hp]⟩
    · rcases s3 with hs | ⟨hm, q, hq, hs⟩
      · rw [hs] at hp; exact absurd hp (List.not_mem_nil p)
      · rw [hs, List.mem_singleton] at hp
        exact ⟨q, hq, by rw [hp]⟩
  · rw [lookupField_append, lookupField_append]
    have l1 := predictBlock1_lookup bank missing fd
    rw [← hb1] at l1
    have t2 : lookupField b2.1 Field.peak_24h = none := by
      rcases s2 with hs | ⟨hm, q, hq, hs⟩ <;> rw [hs] <;> simp [lookupField]
    have t3 : lookupField b3 Field.peak_24h = none := by
      rcases s3 with hs | ⟨hm, q, hq, hs⟩ <;> rw [hs] <;> simp [lookupField]
    rw [l1, t2, t3]
    cases hv : (if Field.peak_24h ∈ missing then
        match bank.peak_24h with
        | some m =>
          match m fd with
          | Except.ok q =>
            if 0 < max 0 (pyInt q) then
              some (Value.num ((max 0 (pyInt q) : ℤ) : ℚ))
            else none
          | Except.error _ => none
        | none => none
      else none : Option Value) <;> rfl
  · rw [lookupField_append, lookupField_append]
    have l2 := predictBlock2_lookup bank missing b1.2
    rw [← hb2] at l2
    have t1 : lookupField b1.1 Field.current_players = none := by
      rcases s1 with hs | ⟨hm, q, hq, hs⟩ <;> rw [hs] <;> simp [lookupField]
    have t3 : lookupField b3 Field.current_players = none := by
      rcases s3 with hs | ⟨hm, q, hq, hs⟩ <;> rw [hs] <;> simp [lookupField]
    rw [l2, t1, t3]
    cases hv : (if Field.current_players ∈ missing then
        match bank.current_players with
        | some m =>
          match m b1.2 with
          | Except.ok q =>
            if 0 < max 0 (pyInt q) then
              some (Value.num ((max 0 (pyInt q) : ℤ) : ℚ))
            else none
          | Except.error _ => none
        | none => none
      else none : Option Value) <;> rfl
  · rw [lookupField_append, lookupField_append]
    have l3 := predictBlock3_lookup bank missing b2.2
    rw [← hb3] at l3
    have t1 : lookupField b1.1 Field.peak_alltime = none := by
      rcases s1 with hs | ⟨hm, q, hq, hs⟩ <;> rw [hs] <;> simp [lookupField]
    have t2 : lookupField b2.1 Field.peak_alltime = none := by
      rcases s2 with hs | ⟨hm, q, hq, hs⟩ <;> rw [hs] <;> simp [lookupField]
    rw [t1, t2, l3]

/-- Witness for C10: a single-model bank predicting 100 for `peak_24h` fills
exactly that field with the clamp of its prediction. -/
theorem c10_witness :
    lookupField [(Field.peak_24h, Value.num 100)] Field.peak_24h =
      (if Field.peak_24h ∈ [Field.peak_24h, Field.peak_alltime] then
        match bankOne.peak_24h with
        | some m =>
          match m fHalf with
          | Except.ok q =>
            if 0 < max 0 (pyInt q) then
              some (Value.num ((max 0 (pyInt q) : ℤ) : ℚ))
            else none
          | Except.error _ => none
        | none => none
      else none) :=
  (c10_model_estimation bankOne 2025 recPriceHalf [Field.peak_24h, Field.peak_alltime]
    [(Field.peak_24h, Value.num 100)] fHalf (by decide) (by decide) (by decide)).2.2.1

/-! ## C6 — a per-record exception drops that record alone -/

/-- C6: any exception escaping one record's processing is caught at the
record boundary and turned into a `dropped` decision for that record, while
every other record's outcome is exactly its own independent processing — one
bad record never aborts the batch. -/
theorem c6_record_error_isolated
    (fetch : ℤ → List Field → Except String (List (Field × Value)))
    (est : Record → List Field → Except String (List (Field × Value)))
    (rs : List Record) (i : ℕ) (hi : i < rs.length) (e : String)
    (herr : processRecordE fetch est rs[i] = Except.error e) :
    (clean_batch fetch est rs)[i]? = some (Decision.dropped, rs[i]) ∧
    ∀ j : ℕ, (clean_batch fetch est rs)[j]? = (rs[j]?).map (processRecord fetch est) := by
  have hmap : ∀ j : ℕ, (clean_batch fetch est rs)[j]? =
      (rs[j]?).map (processRecord fetch est) := by
    intro j
    simp [clean_batch]
  refine ⟨?_, hmap⟩
  rw [hmap i, List.getElem?_eq_getElem hi]
  simp [processRecord, herr]

/-- Witness for C6: a failing network stub drops the first record while the
second (intact) record is untouched. -/
theorem c6_witness :
    (clean_batch fetchErr estOk [recPriceHalf, recPos])[0]? =
      some (Decision.dropped, recPriceHalf) :=
  (c6_record_error_isolated fetchErr estOk [recPriceHalf, recPos] 0 (by decide) "net"
    (by decide)).1

/-! ## C1 — all three cluster fields missing after completion: dropped,
no estimation, independent of the Model Bank -/

/-- C1: when all three player-count fields are classified missing both before
and after the external updates, the record's decision is `dropped`, and the
outcome does not depend on the estimation function at all (no model or
heuristic estimate is attempted, whatever is loaded in the bank). -/
theorem c1_cluster_all_missing_dropped
    (fetch : ℤ → List Field → Except String (List (Field × Value)))
    (est₁ est₂ : Record → List Field → Except String (List (Field × Value)))
    (r : Record) (sup : List (Field × Value))
    (hf : fetch r.app_id (missingFieldsOf r) = Except.ok sup)
    (hmiss : ∀ f ∈ clusterFields, is_field_missing (r.get f) f = true)
    (hstill : ∀ f ∈ clusterFields, is_field_missing ((applyUpdates r sup).get f) f = true) :
    processRecordE fetch est₁ r = Except.ok (Decision.dropped, applyUpdates r sup) ∧
    processRecordE fetch est₁ r = processRecordE fetch est₂ r := by
  have hclu_sub : ∀ f ∈ clusterFields, f ∈ criticalFieldsOrder := by
    intro f hf0; fin_cases hf0 <;> decide
  have hmem3 : ∀ f ∈ clusterFields, f ∈ missingFieldsOf r := by
    intro f hf0
    exact List.mem_filter.mpr ⟨hclu_sub f hf0, hmiss f hf0⟩
  have hstill3 : ∀ f ∈ clusterFields,
      f ∈ stillMissingAfter (applyUpdates r sup) (missingFieldsOf r) := by
    intro f hf0
    refine List.mem_filter.mpr ⟨hclu_sub f hf0, ?_⟩
    rw [Bool.and_eq_true, decide_eq_true_eq]
    exact ⟨hmem3 f hf0, hstill f hf0⟩
  have key : ∀ est, processRecordE fetch est r =
      Except.ok (Decision.dropped, applyUpdates r sup) := by
    intro est
    have hcp := hmem3 Field.current_players (by decide)
    have hne : ((missingFieldsOf r).isEmpty = true) = False := by
      cases hmf : missingFieldsOf r with
      | nil => rw [hmf] at hcp; exact absurd hcp (List.not_mem_nil _)
      | cons a l => simp [hmf]
    simp only [processRecordE, hne, if_false, hf]
    have hA : (missingFieldsOf r = [Field.price] ∧
        (sup.isEmpty = true ∨ sup.any (fun p => p.1 = Field.price) = false)) = False := by
      simp only [eq_iff_iff, iff_false]
      rintro ⟨h1, -⟩
      rw [h1] at hcp
      simp at hcp
    simp only [processAfterFetch, hA, if_false]
    have hcp_mp : Field.current_players ∈
        (stillMissingAfter (applyUpdates r sup) (missingFieldsOf r)).filter
          (fun f => f ∈ clusterFields) :=
      List.mem_filter.mpr ⟨hstill3 _ (by decide), by decide⟩
    have hmpne : (((stillMissingAfter (applyUpdates r sup) (missingFieldsOf r)).filter
        (fun f => f ∈ clusterFields)).isEmpty = true) = False := by
      cases hm2 : (stillMissingAfter (applyUpdates r sup) (missingFieldsOf r)).filter
          (fun f => f ∈ clusterFields) with
      | nil => rw [hm2] at hcp_mp; exact absurd hcp_mp (List.not_mem_nil _)
      | cons a l => simp [hm2]
    have hsame : sameSet
        ((stillMissingAfter (applyUpdates r sup) (missingFieldsOf r)).filter
          (fun f => f ∈ clusterFields)) clusterFields = true := by
      rw [sameSet, Bool.and_eq_true, List.all_eq_true, List.all_eq_true]
      constructor
      · intro x hx
        exact (List.mem_filter.mp hx).2
      · intro x hx
        rw [decide_eq_true_eq]
        exact List.mem_filter.mpr ⟨hstill3 x hx, decide_eq_true hx⟩
    simp only [hmpne, if_false, hsame, if_true]
    have hstill_ne : (stillMissingAfter (applyUpdates r sup) (missingFieldsOf r) =
        [Field.price]) = False := by
      simp only [eq_iff_iff, iff_false]
      intro hq
      have hx := hstill3 Field.current_players (by decide)
      rw [hq] at hx
      simp at hx
    rw [finalizeRecord]
    simp only [hstill_ne, if_false]
    simp
  exact ⟨key est₁, (key est₁).trans (key est₂).symm⟩

/-- Witness for C1: a record with the whole cluster zero and an empty
completion response is dropped. -/
theorem c1_witness :
    processRecordE fetchOkEmpty estOk recAllMissing =
      Except.ok (Decision.dropped, applyUpdates recAllMissing []) :=
  (c1_cluster_all_missing_dropped fetchOkEmpty estOk estOk recAllMissing []
    rfl (by decide) (by decide)).1

/-! ## C2 — price-only records are salvaged with the free sentinel -/

/-- C2: when external completion could not supply a price and price is the
only problematic critical field — either it is the only originally-missing
field (rule A, lines 651–657), or it is the only field still unresolved after
completion with no cluster field left (rule B via lines 700–704), or the only
one left after a cluster estimation round — the record's decision is
`salvaged` with the price set to the sentinel `"Free"`; it is never dropped. -/
theorem c2_price_only_salvaged
    (fetch : ℤ → List Field → Except String (List (Field × Value)))
    (est : Record → List Field → Except String (List (Field × Value)))
    (r : Record) (sup eo : List (Field × Value))
    (hf : fetch r.app_id (missingFieldsOf r) = Except.ok sup)
    (hp : sup.any (fun p => p.1 = Field.price) = false)
    (hcase :
      missingFieldsOf r = [Field.price] ∨
      stillMissingAfter (applyUpdates r sup) (missingFieldsOf r) = [Field.price] ∨
      ((stillMissingAfter (applyUpdates r sup) (missingFieldsOf r)).filter
          (fun f => f ∈ clusterFields) ≠ [] ∧
        sameSet ((stillMissingAfter (applyUpdates r sup) (missingFieldsOf r)).filter
          (fun f => f ∈ clusterFields)) clusterFields = false ∧
        est (applyUpdates r sup)
          ((stillMissingAfter (applyUpdates r sup) (missingFieldsOf r)).filter
            (fun f => f ∈ clusterFields)) = Except.ok eo ∧
        (applyEstimates (applyUpdates r sup)
            ((stillMissingAfter (applyUpdates r sup) (missingFieldsOf r)).filter
              (fun f => f ∈ clusterFields))
            (stillMissingAfter (applyUpdates r sup) (missingFieldsOf r)) eo).2.2.filter
          (fun f => !(f ∈ (applyEstimates (applyUpdates r sup)
              ((stillMissingAfter (applyUpdates r sup) (missingFieldsOf r)).filter
                (fun f => f ∈ clusterFields))
              (stillMissingAfter (applyUpdates r sup) (missingFieldsOf r)) eo).2.1) ||
            is_field_missing ((applyEstimates (applyUpdates r sup)
              ((stillMissingAfter (applyUpdates r sup) (missingFieldsOf r)).filter
                (fun f => f ∈ clusterFields))
              (stillMissingAfter (applyUpdates r sup) (missingFieldsOf r)) eo).1.get f) f) =
          [Field.price])) :
    ∃ r', processRecordE fetch est r = Except.ok (Decision.salvaged, r') ∧
      r'.get Field.price = Value.str "Free" := by
  have caseA : missingFieldsOf r = [Field.price] →
      ∃ r', processRecordE fetch est r = Except.ok (Decision.salvaged, r') ∧
        r'.get Field.price = Value.str "Free" := by
    intro hA
    have hne : ((missingFieldsOf r).isEmpty = true) = False := by rw [hA]; simp
    simp only [processRecordE, hne, if_false, hf]
    rw [processAfterFetch, if_pos ⟨hA, Or.inr hp⟩]
    exact ⟨_, rfl, Record.get_set_self r Field.price (Value.str "Free")⟩
  rcases hcase with hA | hB | hC
  · exact caseA hA
  · by_cases hA' : missingFieldsOf r = [Field.price]
    · exact caseA hA'
    · have hps : Field.price ∈ stillMissingAfter (applyUpdates r sup) (missingFieldsOf r) := by
        rw [hB]; exact List.mem_singleton.mpr rfl
      have hpm : Field.price ∈ missingFieldsOf r := by
        have h2 := (List.mem_filter.mp hps).2
        rw [Bool.and_eq_true, decide_eq_true_eq] at h2
        exact h2.1
      have hne : ((missingFieldsOf r).isEmpty = true) = False := by
        cases hmf : missingFieldsOf r with
        | nil => rw [hmf] at hpm; exact absurd hpm (List.not_mem_nil _)
        | cons a l => simp [hmf]
      simp only [processRecordE, hne, if_false, hf]
      have hcondA : (missingFieldsOf r = [Field.price] ∧
          (sup.isEmpty = true ∨ sup.any (fun p => p.1 = Field.price) = false)) = False := by
        simp only [eq_iff_iff, iff_false]
        rintro ⟨h1, -⟩
        exact hA' h1
      simp only [processAfterFetch, hcondA, if_false]
      rw [hB]
      have hflt : List.filter (fun f => decide (f ∈ clusterFields)) [Field.price] = [] := by
        decide
      rw [hflt]
      exact ⟨(applyUpdates r sup).set Field.price (Value.str "Free"), rfl,
        Record.get_set_self _ _ _⟩
  · obtain ⟨hmp_ne, hss, hest, hstill2⟩ := hC
    by_cases hA' : missingFieldsOf r = [Field.price]
    · exact caseA hA'
    · have hmpne : (((stillMissingAfter (applyUpdates r sup) (missingFieldsOf r)).filter
          (fun f => f ∈ clusterFields)).isEmpty = true) = False := by
        cases hm2 : (stillMissingAfter (applyUpdates r sup) (missingFieldsOf r)).filter
            (fun f => f ∈ clusterFields) with
        | nil => exact absurd hm2 hmp_ne
        | cons a l => simp [hm2]
      have hex : ∃ f0, f0 ∈ (stillMissingAfter (applyUpdates r sup)
          (missingFieldsOf r)).filter (fun f => f ∈ clusterFields) := by
        cases hm2 : (stillMissingAfter (applyUpdates r sup) (missingFieldsOf r)).filter
            (fun f => f ∈ clusterFields) with
        | nil => exact absurd hm2 hmp_ne
        | cons a l => exact ⟨a, List.mem_cons_self a l⟩
      obtain ⟨f0, hf0⟩ := hex
      have hf0s := (List.mem_filter.mp hf0).1
      have hf0m : f0 ∈ missingFieldsOf r := by
        have h2 := (List.mem_filter.mp hf0s).2
        rw [Bool.and_eq_true, decide_eq_true_eq] at h2
        exact h2.1
      have hne : ((missingFieldsOf r).isEmpty = true) = False := by
        cases hmf : missingFieldsOf r with
        | nil => rw [hmf] at hf0m; exact absurd hf0m (List.not_mem_nil _)
        | cons a l => simp [hmf]
      simp only [processRecordE, hne, if_false, hf]
      have hcondA : (missingFieldsOf r = [Field.price] ∧
          (sup.isEmpty = true ∨ sup.any (fun p => p.1 = Field.price) = false)) = False := by
        simp only [eq_iff_iff, iff_false]
        rintro ⟨h1, -⟩
        exact hA' h1
      simp only [processAfterFetch, hcondA, if_false, hmpne, if_false,
        hss, Bool.false_eq_true, hest]
      rw [hstill2]
      exact ⟨_, rfl, Record.get_set_self _ _ _⟩

/-- Witness for C2: a record whose only missing critical field is its price,
given an empty completion response, comes out salvaged with price "Free". -/
theorem c2_witness :
    ∃ r', processRecordE fetchOkEmpty estOk recPriceOnly =
        Except.ok (Decision.salvaged, r') ∧
      r'.get Field.price = Value.str "Free" :=
  c2_price_only_salvaged fetchOkEmpty estOk recPriceOnly [] [] rfl rfl
    (Or.inl (by decide))

end SteamData
